import Mathlib

/-!
Shallow embedding of the task-tracking backend (al-amanah) core:
entity model, visibility filter, task state machine, semester activation,
dashboard roster gate, template expansion and the auto-reminder scan.

Conventions of the embedding:
* Database tables are lists of records inside one `DB` record; a SQLAlchemy
  session plus commit is modelled as a pure function `DB → Except Err DB`
  (returning `.error` models an HTTP error response or an exception raised
  before `db.commit()`, in which case the transaction is rolled back and no
  row change is visible — per the storage collaborator contract, a failing
  request leaves all state unchanged).
* Dates and datetimes are abstract `Int` timestamps (days resp. minutes);
  parsing of inbound ISO strings is an out-of-scope request-validation
  collaborator, so already-parsed values are passed where the route parses.
* Audit-log writes and Discord notification sends are out-of-scope
  collaborators (fire-and-forget); they do not change entity rows and are
  omitted from the row-level state.
* Python truthiness of an optional integer column (`if task.assigned_team_id:`)
  is modelled by `optTruthy` (non-null and non-zero).
-/

namespace AlAmanah

/-- Role enum from app/models/user.py. -/
inductive Role where
  | ADMIN
  | MEMBER
deriving DecidableEq, Repr

/-- TaskStatus enum from app/models/task.py. -/
inductive TaskStatus where
  | PENDING
  | DONE
  | CANNOT_DO
deriving DecidableEq, Repr

/-- TaskType enum from app/models/task.py. -/
inductive TaskType where
  | STANDARD
  | SETUP
deriving DecidableEq, Repr

/-- Error kinds surfaced by the routers (HTTPException status categories)
plus `internal` for uncaught exceptions (HTTP 500, transaction rolled back). -/
inductive Err where
  | notFound
  | forbidden
  | validation (missingTeams : List String)
  | conflict
  | internal
deriving DecidableEq, Repr

/-- users table row (app/models/user.py); password hash omitted
(authentication is an out-of-scope collaborator). -/
structure User where
  id : Nat
  role : Role
  teamId : Option Nat
  discordId : Option String
  displayName : String
deriving DecidableEq, Repr

/-- teams table row (app/models/team.py). -/
structure Team where
  id : Nat
  name : String
deriving DecidableEq, Repr

/-- tasks table row (app/models/task.py). -/
structure Task where
  id : Nat
  eventId : Nat
  title : String
  description : Option String := none
  taskType : TaskType := TaskType.STANDARD
  status : TaskStatus := TaskStatus.PENDING
  assignedTo : Option Nat := none
  assignedTeamId : Option Nat := none
  completedBy : Option Nat := none
  reminderTime : Option Int := none
  reminderSent : Bool := false
  autoReminderSent : Bool := false
  cannotDoReason : Option String := none
deriving DecidableEq, Repr

/-- events table row (app/models/event.py); datetime in abstract minutes. -/
structure Event where
  id : Nat
  weekId : Nat
  name : String
  datetime : Int
  location : Option String := none
deriving DecidableEq, Repr

/-- weeks table row (app/models/week.py); dates in abstract days. -/
structure Week where
  id : Nat
  semesterId : Nat
  weekNumber : Nat
  startDate : Int
  endDate : Int
deriving DecidableEq, Repr

/-- semesters table row (app/models/semester.py). -/
structure Semester where
  id : Nat
  name : String
  startDate : Int
  endDate : Int
  isActive : Bool
deriving DecidableEq, Repr

/-- task_assignments join row (app/models/task_assignment.py); the table
carries a UNIQUE (task_id, user_id) constraint. -/
structure TaskAssignment where
  taskId : Nat
  userId : Nat
deriving DecidableEq, Repr

/-- roster_members join row (app/models/roster.py). -/
structure RosterMember where
  semesterId : Nat
  userId : Nat
deriving DecidableEq, Repr

/-- TaskTemplateSchema (app/routers/templates.py): a task stub inside an
event template; task_type is kept as the raw string the source stores. -/
structure TaskTemplateSchema where
  title : String
  description : Option String := none
  taskType : String := "STANDARD"
  assignedTeamName : Option String := none
deriving DecidableEq, Repr

/-- EventTemplateOut (app/routers/templates.py): a resolved event template. -/
structure EventTemplateOut where
  id : String
  name : String
  tasks : List TaskTemplateSchema
deriving DecidableEq, Repr

/-- WeekEventTemplateSchema (app/routers/templates.py): one entry of a week
template; default_time kept as the raw HH:MM string the source stores. -/
structure WeekEventTemplateSchema where
  eventTemplateId : String
  dayOfWeek : Nat
  defaultTime : String
deriving DecidableEq, Repr

/-- WeekTemplateOut (app/routers/templates.py): a resolved week template. -/
structure WeekTemplateOut where
  id : String
  name : String
  events : List WeekEventTemplateSchema
deriving DecidableEq, Repr

/-- Modelled from the spec: persisted event_templates table row
(app/models/template.py has id, name, tasks_json; the overrides_default_id
column the routers query — spec section 4.4 override-by-id — is missing from
the models file under src, so it is modelled here from the spec). -/
structure EventTemplateRow where
  id : Nat
  name : String
  overridesDefaultId : Option String := none
  tasksJson : List TaskTemplateSchema := []
deriving DecidableEq, Repr

/-- week_template_events junction row (app/models/template.py): either an
integer FK to a persisted event template or a string id of a built-in one. -/
structure WeekTemplateEventRow where
  eventTemplateId : Option Nat := none
  eventTemplateIdStr : Option String := none
  dayOfWeek : Nat
  defaultTime : String
deriving DecidableEq, Repr

/-- Modelled from the spec: persisted week_templates table row with its event
entries (app/models/template.py has id, name, description, events; the
overrides_default_id column the routers query — spec section 4.4
override-by-id — is missing from the models file under src, so it is
modelled here from the spec). -/
structure WeekTemplateRow where
  id : Nat
  name : String
  overridesDefaultId : Option String := none
  events : List WeekTemplateEventRow := []
deriving DecidableEq, Repr

/-- The relational state: one list per table. -/
structure DB where
  semesters : List Semester := []
  weeks : List Week := []
  events : List Event := []
  tasks : List Task := []
  users : List User := []
  teams : List Team := []
  assignments : List TaskAssignment := []
  roster : List RosterMember := []
  eventTemplates : List EventTemplateRow := []
  weekTemplates : List WeekTemplateRow := []
deriving DecidableEq, Repr

/-- Python truthiness of an optional integer column: non-null and non-zero. -/
def optTruthy : Option Nat → Bool
  | none => false
  | some n => n != 0

/-- can_modify_task (app/routers/tasks.py lines 179-195): ADMIN, direct
assignee, team channel, or multi-user pool row. -/
def can_modify_task (db : DB) (task : Task) (user : User) : Bool :=
  if user.role == Role.ADMIN then true
  else if task.assignedTo == some user.id then true
  else if optTruthy task.assignedTeamId && user.teamId == task.assignedTeamId then true
  else
    match db.assignments.find? (fun a => a.taskId == task.id && a.userId == user.id) with
    | some _ => true
    | none => false

/-- can_view_task (app/routers/comments.py lines 31-44): same three-channel
union, returning pool-row existence directly in the fall-through case. -/
def can_view_task (db : DB) (task : Task) (user : User) : Bool :=
  if user.role == Role.ADMIN then true
  else if task.assignedTo == some user.id then true
  else if optTruthy task.assignedTeamId && user.teamId == task.assignedTeamId then true
  else (db.assignments.find? (fun a => a.taskId == task.id && a.userId == user.id)).isSome

/-- db.query(Task).filter(Task.id == task_id).first(). -/
def findTask (db : DB) (taskId : Nat) : Option Task :=
  db.tasks.find? (fun t => t.id == taskId)

/-- Write back an updated task row (the ORM mutates the row found by primary
key; primary keys are unique, so mapping over matching ids is equivalent). -/
def updateTaskRow (db : DB) (taskId : Nat) (f : Task → Task) : DB :=
  { db with tasks := db.tasks.map (fun t => if t.id == taskId then f t else t) }

/-- mark_task_done (app/routers/tasks.py lines 198-227): sets DONE and stamps
completed_by; the audit write is an out-of-scope collaborator. Note the
current status is never inspected. -/
def mark_task_done (db : DB) (taskId : Nat) (currentUser : User) : Except Err DB :=
  match findTask db taskId with
  | none => .error Err.notFound
  | some task =>
    if !can_modify_task db task currentUser then .error Err.forbidden
    else .ok (updateTaskRow db taskId (fun t =>
      { t with status := TaskStatus.DONE, completedBy := some currentUser.id }))

/-- mark_task_cannot_do (app/routers/tasks.py lines 230-276) including the
TaskCannotDo request schema (app/schemas/task.py lines 57-58): the body is
`reason: str`, a required field with no content validation, so `body = none`
models a request missing the field (pydantic 422) and any present string —
empty or whitespace included — is accepted verbatim. The current status is
never inspected; audit write and admin alert are out-of-scope collaborators. -/
def mark_task_cannot_do (db : DB) (taskId : Nat) (body : Option String)
    (currentUser : User) : Except Err DB :=
  match body with
  | none => .error (Err.validation [])
  | some reason =>
    match findTask db taskId with
    | none => .error Err.notFound
    | some task =>
      if !can_modify_task db task currentUser then .error Err.forbidden
      else .ok (updateTaskRow db taskId (fun t =>
        { t with status := TaskStatus.CANNOT_DO, cannotDoReason := some reason,
                 completedBy := some currentUser.id }))

/-- undo_task_status (app/routers/tasks.py lines 279-311): resets to PENDING
and clears cannot_do_reason and completed_by. -/
def undo_task_status (db : DB) (taskId : Nat) (currentUser : User) : Except Err DB :=
  match findTask db taskId with
  | none => .error Err.notFound
  | some task =>
    if !can_modify_task db task currentUser then .error Err.forbidden
    else .ok (updateTaskRow db taskId (fun t =>
      { t with status := TaskStatus.PENDING, cannotDoReason := none,
               completedBy := none }))

/-- TaskUpdate schema (app/schemas/task.py lines 20-26) under pydantic
exclude_unset semantics: the outer Option is field presence. For assigned_to
and assigned_team_id an explicitly transmitted null is meaningful
(unassigning), hence the doubly-optional type; an explicit null for the
non-nullable title/task_type columns (which the source would reject at
commit) is not representable. -/
structure TaskUpdate where
  title : Option String := none
  description : Option (Option String) := none
  taskType : Option TaskType := none
  assignedTo : Option (Option Nat) := none
  assignedTeamId : Option (Option Nat) := none
  assignedUserIds : Option (List Nat) := none
deriving DecidableEq, Repr

/-- The assignment-change test of update_task (app/routers/tasks.py lines
135-140): true when assigned_to or assigned_team_id is transmitted with a
value different from the stored one. -/
def taskUpdateAssignmentChanged (data : TaskUpdate) (task : Task) : Bool :=
  (match data.assignedTo with
   | some v => v != task.assignedTo
   | none => false) ||
  (match data.assignedTeamId with
   | some v => v != task.assignedTeamId
   | none => false)

/-- The row mutation of update_task (app/routers/tasks.py lines 142-148):
the re-pending reset when the assignment changed on a non-PENDING task,
followed by applying the transmitted scalar fields. -/
def taskUpdateApply (data : TaskUpdate) (task : Task) : Task :=
  let task1 :=
    if taskUpdateAssignmentChanged data task && task.status != TaskStatus.PENDING then
      { task with status := TaskStatus.PENDING, cannotDoReason := none,
                  completedBy := none }
    else task
  { task1 with
    title := data.title.getD task1.title,
    description := data.description.getD task1.description,
    taskType := data.taskType.getD task1.taskType,
    assignedTo := data.assignedTo.getD task1.assignedTo,
    assignedTeamId := data.assignedTeamId.getD task1.assignedTeamId }

/-- update_task (app/routers/tasks.py lines 120-161): admin-only task update.
Applies the re-pending reset and the transmitted scalar fields; then, if
assigned_user_ids is transmitted, deletes all pool rows of the task and
inserts one per listed user id. A transmitted list with a duplicate user id
violates the UNIQUE (task_id, user_id) constraint of task_assignments at
commit, so the whole request fails and is rolled back (modelled as
`.error Err.conflict`). -/
def update_task (db : DB) (taskId : Nat) (data : TaskUpdate) : Except Err DB :=
  match findTask db taskId with
  | none => .error Err.notFound
  | some task =>
    let task2 := taskUpdateApply data task
    let db1 := { db with tasks := db.tasks.map (fun t => if t.id == taskId then task2 else t) }
    match data.assignedUserIds with
    | none => .ok db1
    | some ids =>
      if ids.Nodup then
        let newRows : List TaskAssignment :=
          ids.map (fun uid => { taskId := taskId, userId := uid })
        .ok { db1 with assignments :=
          db1.assignments.filter (fun a => a.taskId != taskId) ++ newRows }
      else .error Err.conflict

/-- SemesterCreate schema (app/schemas/semester.py). -/
structure SemesterCreate where
  name : String
  startDate : Int
  endDate : Int
  isActive : Bool := true
deriving DecidableEq, Repr

/-- SemesterUpdate schema (app/schemas/semester.py) under exclude_unset
semantics. -/
structure SemesterUpdate where
  name : Option String := none
  startDate : Option Int := none
  endDate : Option Int := none
  isActive : Option Bool := none
deriving DecidableEq, Repr

/-- Fresh autoincrement primary key for the semesters table. -/
def freshSemesterId (db : DB) : Nat :=
  db.semesters.foldl (fun m s => max m s.id) 0 + 1

/-- create_semester (app/routers/semesters.py lines 21-35): when the new
semester is active, first set is_active false on every currently active
semester, then insert the new row. Returns the new row id. -/
def create_semester (db : DB) (data : SemesterCreate) : DB × Nat :=
  let db1 :=
    if data.isActive then
      { db with semesters := db.semesters.map (fun s =>
          if s.isActive then { s with isActive := false } else s) }
    else db
  let sid := freshSemesterId db1
  ({ db1 with semesters := db1.semesters ++
      [{ id := sid, name := data.name, startDate := data.startDate,
         endDate := data.endDate, isActive := data.isActive }] }, sid)

/-- update_semester (app/routers/semesters.py lines 38-63): when is_active is
transmitted as true, first set is_active false on every other active
semester, then apply the transmitted fields to the target row. -/
def update_semester (db : DB) (semesterId : Nat) (data : SemesterUpdate) :
    Except Err DB :=
  match db.semesters.find? (fun s => s.id == semesterId) with
  | none => .error Err.notFound
  | some _ =>
    let db1 :=
      if data.isActive == some true then
        { db with semesters := db.semesters.map (fun s =>
            if s.isActive && s.id != semesterId then { s with isActive := false }
            else s) }
      else db
    .ok { db1 with semesters := db1.semesters.map (fun s =>
      if s.id == semesterId then
        { s with
          name := data.name.getD s.name,
          startDate := data.startDate.getD s.startDate,
          endDate := data.endDate.getD s.endDate,
          isActive := data.isActive.getD s.isActive }
      else s) }

/-- EventData of the dashboard response (app/routers/dashboard.py); the
per-task display projection (assignee and completer names) is
presentation-only and the task rows are carried directly. -/
structure EventData where
  id : Nat
  name : String
  datetime : Int
  location : Option String
  tasks : List Task
deriving DecidableEq, Repr

/-- WeekData of the dashboard response (app/routers/dashboard.py). -/
structure WeekData where
  id : Nat
  weekNumber : Nat
  startDate : Int
  endDate : Int
  isCurrent : Bool
  events : List EventData
deriving DecidableEq, Repr

/-- DashboardResponse (app/routers/dashboard.py). -/
structure DashboardResponse where
  semesterName : Option String
  semesterId : Option Nat
  weeks : List WeekData
  userRole : Role
deriving DecidableEq, Repr

/-- The per-event task filter of get_dashboard (app/routers/dashboard.py
lines 117-149): admins see every task; a member with a (truthy) team id sees
direct, team and pool tasks; a member without one sees direct and pool
tasks, the pool disjunct being emitted only when the pool id list is
non-empty. -/
def dashboardEventTasks (db : DB) (u : User) (eventId : Nat) : List Task :=
  let base := db.tasks.filter (fun t => t.eventId == eventId)
  if u.role != Role.ADMIN then
    let userAssignedTaskIds :=
      (db.assignments.filter (fun a => a.userId == u.id)).map (fun a => a.taskId)
    if optTruthy u.teamId then
      base.filter (fun t =>
        t.assignedTo == some u.id || t.assignedTeamId == u.teamId ||
        (!userAssignedTaskIds.isEmpty && userAssignedTaskIds.contains t.id))
    else
      if !userAssignedTaskIds.isEmpty then
        base.filter (fun t =>
          t.assignedTo == some u.id || userAssignedTaskIds.contains t.id)
      else
        base.filter (fun t => t.assignedTo == some u.id)
  else base

/-- get_dashboard (app/routers/dashboard.py lines 65-230): resolve the active
semester; for non-admins require a RosterMember row (otherwise an empty
weeks list with the semester name still reported); then build weeks, with an
event included for a non-admin only when it has a visible task. The
order_by clauses only affect ordering and are omitted; `today` abstracts
date.today(). -/
def get_dashboard (db : DB) (u : User) (today : Int) : DashboardResponse :=
  match db.semesters.find? (fun s => s.isActive) with
  | none =>
    { semesterName := none, semesterId := none, weeks := [], userRole := u.role }
  | some semester =>
    if u.role != Role.ADMIN &&
        (db.roster.find? (fun r =>
          r.semesterId == semester.id && r.userId == u.id)).isNone then
      { semesterName := some semester.name, semesterId := some semester.id,
        weeks := [], userRole := u.role }
    else
      let weeksData := (db.weeks.filter (fun w => w.semesterId == semester.id)).map
        (fun w =>
          let eventsData := (db.events.filter (fun e => e.weekId == w.id)).filterMap
            (fun e =>
              let tasksData := dashboardEventTasks db u e.id
              if !tasksData.isEmpty || u.role == Role.ADMIN then
                some { id := e.id, name := e.name, datetime := e.datetime,
                       location := e.location, tasks := tasksData }
              else none)
          { id := w.id, weekNumber := w.weekNumber, startDate := w.startDate,
            endDate := w.endDate,
            isCurrent := decide (w.startDate ≤ today ∧ today ≤ w.endDate),
            events := eventsData })
      { semesterName := some semester.name, semesterId := some semester.id,
        weeks := weeksData, userRole := u.role }

/-- Built-in event template "email" (app/routers/templates.py lines 83-91). -/
def templateEmail : EventTemplateOut :=
  { id := "email", name := "Weekly Announcement Email", tasks := [
      { title := "Create event poster", taskType := "STANDARD", assignedTeamName := some "Media" },
      { title := "Draft email", taskType := "STANDARD", assignedTeamName := some "Secretary" },
      { title := "Review email", taskType := "STANDARD", assignedTeamName := some "P/VP" },
      { title := "Send email", taskType := "STANDARD", assignedTeamName := some "Secretary" }] }

/-- Built-in event template "sweet_sunday" (app/routers/templates.py lines
92-107). -/
def templateSweetSunday : EventTemplateOut :=
  { id := "sweet_sunday", name := "Sweet Sunday", tasks := [
      { title := "Decide on SS Question", taskType := "STANDARD" },
      { title := "Submit Event Form", taskType := "STANDARD", assignedTeamName := some "Logistics" },
      { title := "Order sweets", taskType := "STANDARD", assignedTeamName := some "Logistics" },
      { title := "Pick up sweets", taskType := "STANDARD" },
      { title := "Shift 1 Person 1", taskType := "STANDARD" },
      { title := "Shift 1 Person 2", taskType := "STANDARD" },
      { title := "Shift 2 Person 1", taskType := "STANDARD" },
      { title := "Shift 2 Person 2", taskType := "STANDARD" },
      { title := "Update Budget Tracker & Projection", taskType := "STANDARD", assignedTeamName := some "Finance" },
      { title := "Photography", taskType := "STANDARD", assignedTeamName := some "Media" },
      { title := "Post on Instagram", taskType := "STANDARD", assignedTeamName := some "Media" }] }

/-- Built-in event template "kk" (app/routers/templates.py lines 108-128). -/
def templateKK : EventTemplateOut :=
  { id := "kk", name := "Karak & Kookies (K&K)", tasks := [
      { title := "Submit Event Form", taskType := "STANDARD", assignedTeamName := some "Logistics" },
      { title := "Order kookies", taskType := "STANDARD", assignedTeamName := some "Logistics" },
      { title := "Decide topic and provide small summary", taskType := "STANDARD" },
      { title := "Hang up posters 1st floor", taskType := "STANDARD" },
      { title := "Hang up posters 2nd floor", taskType := "STANDARD" },
      { title := "Hang up posters 3rd floor", taskType := "STANDARD" },
      { title := "Sharing poster on WhatsApp", taskType := "STANDARD", assignedTeamName := some "P/VP" },
      { title := "Sending \x27Happening Today\x27 reminder on WhatsApp", taskType := "STANDARD", assignedTeamName := some "P/VP" },
      { title := "Picking up kookies", taskType := "STANDARD" },
      { title := "Picking up karak", taskType := "STANDARD" },
      { title := "Set up seating 1", taskType := "SETUP" },
      { title := "Set up seating 2", taskType := "SETUP" },
      { title := "Set up speaker", taskType := "SETUP" },
      { title := "Update Budget Tracker & Projection", taskType := "STANDARD", assignedTeamName := some "Finance" },
      { title := "Submit expense forms for the week", taskType := "STANDARD", assignedTeamName := some "Finance" },
      { title := "Create event poster", taskType := "STANDARD", assignedTeamName := some "Media" }] }

/-- Built-in event template "speaker_event" (app/routers/templates.py lines
129-144). -/
def templateSpeakerEvent : EventTemplateOut :=
  { id := "speaker_event", name := "Speaker Event", tasks := [
      { title := "Confirm speaker & topic", taskType := "STANDARD" },
      { title := "Submit Event Form", taskType := "STANDARD", assignedTeamName := some "Logistics" },
      { title := "Order food", taskType := "STANDARD", assignedTeamName := some "Logistics" },
      { title := "Setup room & recording", taskType := "SETUP" },
      { title := "Sharing poster on WhatsApp", taskType := "STANDARD", assignedTeamName := some "P/VP" },
      { title := "Sending \x27Happening Today\x27 reminder on WhatsApp", taskType := "STANDARD", assignedTeamName := some "P/VP" },
      { title := "Picking up food", taskType := "STANDARD" },
      { title := "Update Budget Tracker & Projection", taskType := "STANDARD", assignedTeamName := some "Finance" },
      { title := "Submit expense forms for the week", taskType := "STANDARD", assignedTeamName := some "Finance" },
      { title := "Photography", taskType := "STANDARD", assignedTeamName := some "Media" },
      { title := "Post on social media", taskType := "STANDARD", assignedTeamName := some "Media" }] }

/-- Built-in event template "dine_reflect" (app/routers/templates.py lines
145-161). -/
def templateDineReflect : EventTemplateOut :=
  { id := "dine_reflect", name := "Dine & Reflect", tasks := [
      { title := "Submit Event Form", taskType := "STANDARD", assignedTeamName := some "Logistics" },
      { title := "Order food", taskType := "STANDARD", assignedTeamName := some "Logistics" },
      { title := "Decide video", taskType := "STANDARD" },
      { title := "Hang up posters 1st floor", taskType := "STANDARD" },
      { title := "Hang up posters 2nd floor", taskType := "STANDARD" },
      { title := "Hang up posters 3rd floor", taskType := "STANDARD" },
      { title := "Sharing poster on WhatsApp", taskType := "STANDARD", assignedTeamName := some "P/VP" },
      { title := "Sending \x27Happening Today\x27 reminder on WhatsApp", taskType := "STANDARD", assignedTeamName := some "P/VP" },
      { title := "Picking up food", taskType := "STANDARD" },
      { title := "Bring banner", taskType := "SETUP" },
      { title := "Update Budget Tracker & Projection", taskType := "STANDARD", assignedTeamName := some "Finance" },
      { title := "Submit expense forms for the week", taskType := "STANDARD", assignedTeamName := some "Finance" }] }

/-- DEFAULT_EVENT_TEMPLATES (app/routers/templates.py lines 82-162): the
built-in event template catalog. -/
def DEFAULT_EVENT_TEMPLATES : List EventTemplateOut :=
  [templateEmail, templateSweetSunday, templateKK, templateSpeakerEvent,
   templateDineReflect]

/-- Built-in week template "sweet_sunday_kk" (app/routers/templates.py lines
165-182). -/
def weekTemplateSweetSundayKK : WeekTemplateOut :=
  { id := "sweet_sunday_kk", name := "Sweet Sunday + K&K", events := [
      { eventTemplateId := "sweet_sunday", dayOfWeek := 0, defaultTime := "13:00" },
      { eventTemplateId := "kk", dayOfWeek := 4, defaultTime := "17:30" }] }

/-- Built-in week template "sweet_sunday_speaker" (app/routers/templates.py
lines 183-200). -/
def weekTemplateSweetSundaySpeaker : WeekTemplateOut :=
  { id := "sweet_sunday_speaker", name := "Sweet Sunday + Speaker Event", events := [
      { eventTemplateId := "sweet_sunday", dayOfWeek := 0, defaultTime := "13:00" },
      { eventTemplateId := "speaker_event", dayOfWeek := 3, defaultTime := "18:00" }] }

/-- Built-in week template "sweet_sunday_dine" (app/routers/templates.py
lines 201-218). -/
def weekTemplateSweetSundayDine : WeekTemplateOut :=
  { id := "sweet_sunday_dine", name := "Sweet Sunday + Dine & Reflect", events := [
      { eventTemplateId := "sweet_sunday", dayOfWeek := 0, defaultTime := "13:00" },
      { eventTemplateId := "dine_reflect", dayOfWeek := 4, defaultTime := "17:30" }] }

/-- DEFAULT_WEEK_TEMPLATES (app/routers/templates.py lines 164-219): the
built-in week template catalog. -/
def DEFAULT_WEEK_TEMPLATES : List WeekTemplateOut :=
  [weekTemplateSweetSundayKK, weekTemplateSweetSundaySpeaker,
   weekTemplateSweetSundayDine]

/-- db_event_template_to_out (app/routers/templates.py lines 275-297): an
override row keeps the overridden built-in id, a plain custom row gets a
db_-prefixed id. -/
def db_event_template_to_out (t : EventTemplateRow) : EventTemplateOut :=
  match t.overridesDefaultId with
  | some did => { id := did, name := t.name, tasks := t.tasksJson }
  | none => { id := "db_" ++ toString t.id, name := t.name, tasks := t.tasksJson }

/-- Conversion of a week_template_events row to the schema entry, from
db_week_template_to_out (app/routers/templates.py lines 300-309): a truthy
integer FK becomes a db_-prefixed id, else the stored string id is used. -/
def weekTemplateEventToSchema (e : WeekTemplateEventRow) : WeekEventTemplateSchema :=
  { eventTemplateId :=
      if optTruthy e.eventTemplateId then "db_" ++ toString (e.eventTemplateId.getD 0)
      else e.eventTemplateIdStr.getD "",
    dayOfWeek := e.dayOfWeek, defaultTime := e.defaultTime }

/-- db_week_template_to_out (app/routers/templates.py lines 300-331). -/
def db_week_template_to_out (t : WeekTemplateRow) : WeekTemplateOut :=
  let events := t.events.map weekTemplateEventToSchema
  match t.overridesDefaultId with
  | some did => { id := did, name := t.name, events := events }
  | none => { id := "db_" ++ toString t.id, name := t.name, events := events }

/-- get_event_template_by_id (app/routers/templates.py lines 350-371):
override row first, then the built-in catalog, then persisted custom rows by
db_-prefixed id (int() of a malformed suffix raises in the source; modelled
as no match, a case no template id produced by the system takes). -/
def get_event_template_by_id (db : DB) (templateId : String) : Option EventTemplateOut :=
  match db.eventTemplates.find? (fun t => t.overridesDefaultId == some templateId) with
  | some override => some (db_event_template_to_out override)
  | none =>
    match DEFAULT_EVENT_TEMPLATES.find? (fun t => t.id == templateId) with
    | some t => some t
    | none =>
      if templateId.startsWith "db_" then
        match (templateId.drop 3).toNat? with
        | some dbId =>
          match db.eventTemplates.find? (fun t => t.id == dbId) with
          | some t => some (db_event_template_to_out t)
          | none => none
        | none => none
      else none

/-- get_week_template_by_id (app/routers/templates.py lines 374-395): same
precedence as the event template lookup. -/
def get_week_template_by_id (db : DB) (templateId : String) : Option WeekTemplateOut :=
  match db.weekTemplates.find? (fun t => t.overridesDefaultId == some templateId) with
  | some override => some (db_week_template_to_out override)
  | none =>
    match DEFAULT_WEEK_TEMPLATES.find? (fun t => t.id == templateId) with
    | some t => some t
    | none =>
      if templateId.startsWith "db_" then
        match (templateId.drop 3).toNat? with
        | some dbId =>
          match db.weekTemplates.find? (fun t => t.id == dbId) with
          | some t => some (db_week_template_to_out t)
          | none => none
        | none => none
      else none

/-- The SQL `Team.name.ilike(name)` lookup: case-insensitive name equality
(the template team names contain no LIKE wildcards). -/
def findTeamByNameCI (teams : List Team) (nm : String) : Option Team :=
  teams.find? (fun t => t.name.toLower == nm.toLower)

/-- The team pre-validation loop of create_from_template
(app/routers/templates.py lines 883-892), written as the loop it is: walks
the stubs carrying the name-to-id cache and the unresolved-name list. A stub
with a falsy (absent or empty) team name is skipped; a name already in the
cache is skipped; a missing name is appended to the unresolved list (once
per stub carrying it, as in the source, since only resolved names enter the
cache). -/
def resolveTeamsGo (teams : List Team) (cache : List (String × Nat))
    (missing : List String) :
    List TaskTemplateSchema → List (String × Nat) × List String
  | [] => (cache, missing)
  | stub :: rest =>
    match stub.assignedTeamName with
    | none => resolveTeamsGo teams cache missing rest
    | some nm =>
      if nm == "" then resolveTeamsGo teams cache missing rest
      else if (cache.find? (fun p => p.1 == nm)).isSome then
        resolveTeamsGo teams cache missing rest
      else
        match findTeamByNameCI teams nm with
        | some team => resolveTeamsGo teams (cache ++ [(nm, team.id)]) missing rest
        | none => resolveTeamsGo teams cache (missing ++ [nm]) rest

/-- The pre-validation entry point: empty cache and no unresolved names. -/
def resolveTeams (teams : List Team) (stubs : List TaskTemplateSchema) :
    List (String × Nat) × List String :=
  resolveTeamsGo teams [] [] stubs

/-- Python enum name lookup TaskType[s]; a KeyError is modelled as none. -/
def parseTaskType : String → Option TaskType
  | "STANDARD" => some TaskType.STANDARD
  | "SETUP" => some TaskType.SETUP
  | _ => none

/-- Fresh autoincrement primary key for the events table. -/
def freshEventId (db : DB) : Nat :=
  db.events.foldl (fun m e => max m e.id) 0 + 1

/-- Fresh autoincrement primary key for the tasks table. -/
def freshTaskId (db : DB) : Nat :=
  db.tasks.foldl (fun m t => max m t.id) 0 + 1

/-- Python `data.event_name or template.name`: an absent or empty override
name falls back to the template name. -/
def pyOrName (override : Option String) (fallback : String) : String :=
  match override with
  | some nm => if nm == "" then fallback else nm
  | none => fallback

/-- The task-creation loop of create_from_template (app/routers/templates.py
lines 913-926): one PENDING task per stub, assigned_team_id looked up in the
cache for a truthy team name; none when TaskType[...] raises (HTTP 500,
transaction rolled back). Ids are consecutive autoincrement keys. -/
def templateTaskRows (nextId : Nat) (eventId : Nat) (cache : List (String × Nat)) :
    List TaskTemplateSchema → Option (List Task)
  | [] => some []
  | stub :: rest =>
    match parseTaskType stub.taskType with
    | none => none
    | some tt =>
      let teamId : Option Nat :=
        if stub.assignedTeamName.getD "" != "" then
          (cache.find? (fun p => some p.1 == stub.assignedTeamName)).map (fun p => p.2)
        else none
      match templateTaskRows (nextId + 1) eventId cache rest with
      | none => none
      | some ts =>
        some ({ id := nextId, eventId := eventId, title := stub.title,
                description := stub.description, taskType := tt,
                status := TaskStatus.PENDING, assignedTeamId := teamId } :: ts)

/-- CreateFromTemplateRequest (app/routers/templates.py lines 865-869);
the datetime field carries the already-parsed ISO value, none modelling a
string dt.fromisoformat rejects. -/
structure CreateFromTemplateRequest where
  templateId : String
  weekId : Nat
  datetime : Option Int
  eventName : Option String := none
deriving DecidableEq, Repr

/-- create_from_template (app/routers/templates.py lines 872-934): resolve
the template (404 when unknown); pre-validate every referenced team name and
fail with a validation error listing the unresolved names before creating
anything; then parse the datetime (400 when invalid); then create one Event
row and one PENDING Task row per stub in a single transaction. Returns the
new event id with the new state. -/
def create_from_template (db : DB) (data : CreateFromTemplateRequest) :
    Except Err (DB × Nat) :=
  match get_event_template_by_id db data.templateId with
  | none => .error Err.notFound
  | some template =>
    let resolved := resolveTeams db.teams template.tasks
    if !resolved.2.isEmpty then .error (Err.validation resolved.2)
    else
      match data.datetime with
      | none => .error (Err.validation [])
      | some eventDatetime =>
        let eid := freshEventId db
        let event : Event :=
          { id := eid, weekId := data.weekId,
            name := pyOrName data.eventName template.name,
            datetime := eventDatetime }
        match templateTaskRows (freshTaskId db) eid resolved.1 template.tasks with
        | none => .error Err.internal
        | some newTasks =>
          .ok ({ db with events := db.events ++ [event],
                         tasks := db.tasks ++ newTasks }, eid)

/-- Python int() over one part of the split clock string: digits only (as
every stored HH:MM part is); an empty or non-digit part raises ValueError,
modelled as none. -/
def parseDigits : List Char → Option Nat
  | [] => none
  | cs =>
    cs.foldl (fun acc c =>
      match acc with
      | none => none
      | some n => if c.isDigit then some (n * 10 + (c.toNat - 48)) else none)
      (some 0)

/-- parse of `map(int, default_time.split(":"))` with two-value unpacking
(app/routers/templates.py line 974), over the underlying character list; a
ValueError is modelled as none. -/
def parseHM (s : String) : Option (Nat × Nat) :=
  match (s.data.splitOn ':').map parseDigits with
  | [some h, some m] => some (h, m)
  | _ => none

/-- The datetime built for a week-template event (app/routers/templates.py
lines 973-975): the week start date shifted by the day offset, at the given
clock time, in abstract minutes. -/
def weekEventDatetime (weekStartDate : Int) (dayOfWeek : Nat) (h m : Nat) : Int :=
  (weekStartDate + dayOfWeek) * 1440 + (h * 60 + m)

/-- The team cache built by create_from_week_template
(app/routers/templates.py lines 957-964): over every stub of every entry
whose event template resolves, cache the case-insensitive team lookup
result — `team.id if team else None`, so a missing team is cached as none
and never treated as an error. -/
def weekTeamCacheStub (teams : List Team) (cache : List (String × Option Nat))
    (stub : TaskTemplateSchema) : List (String × Option Nat) :=
  match stub.assignedTeamName with
  | none => cache
  | some nm =>
    if nm == "" then cache
    else if (cache.find? (fun p => p.1 == nm)).isSome then cache
    else cache ++ [(nm, (findTeamByNameCI teams nm).map (fun t => t.id))]

/-- The outer cache loop of create_from_week_template over the template
entries (app/routers/templates.py lines 957-964), written as the loop it
is: entries whose event template does not resolve contribute nothing. -/
def weekTeamCacheGo (db : DB) (cache : List (String × Option Nat)) :
    List WeekEventTemplateSchema → List (String × Option Nat)
  | [] => cache
  | we :: rest =>
    match get_event_template_by_id db we.eventTemplateId with
    | none => weekTeamCacheGo db cache rest
    | some tmpl =>
      weekTeamCacheGo db (tmpl.tasks.foldl (weekTeamCacheStub db.teams) cache) rest

/-- The cache entry point: starts from the empty cache. -/
def weekTeamCache (db : DB) (entries : List WeekEventTemplateSchema) :
    List (String × Option Nat) :=
  weekTeamCacheGo db [] entries

/-- The task-creation loop inside create_from_week_template
(app/routers/templates.py lines 985-998): like templateTaskRows but against
the optional-valued cache (`team_cache.get(name)` may yield a cached none). -/
def weekTaskRows (nextId : Nat) (eventId : Nat) (cache : List (String × Option Nat)) :
    List TaskTemplateSchema → Option (List Task)
  | [] => some []
  | stub :: rest =>
    match parseTaskType stub.taskType with
    | none => none
    | some tt =>
      let teamId : Option Nat :=
        if stub.assignedTeamName.getD "" != "" then
          ((cache.find? (fun p => some p.1 == stub.assignedTeamName)).map
            (fun p => p.2)).join
        else none
      match weekTaskRows (nextId + 1) eventId cache rest with
      | none => none
      | some ts =>
        some ({ id := nextId, eventId := eventId, title := stub.title,
                description := stub.description, taskType := tt,
                status := TaskStatus.PENDING, assignedTeamId := teamId } :: ts)

/-- The per-entry expansion loop of create_from_week_template
(app/routers/templates.py lines 968-1000): an entry whose event template
does not resolve is silently skipped; otherwise the clock time is parsed (a
ValueError aborts the whole batch, rolled back), an Event row is inserted
and one PENDING Task row per stub, and the template name is accumulated. -/
def expandWeekEntries (weekId : Nat) (weekStartDate : Int)
    (cache : List (String × Option Nat)) (db : DB) :
    List WeekEventTemplateSchema → Except Err (DB × List String)
  | [] => .ok (db, [])
  | we :: rest =>
    match get_event_template_by_id db we.eventTemplateId with
    | none => expandWeekEntries weekId weekStartDate cache db rest
    | some tmpl =>
      match parseHM we.defaultTime with
      | none => .error Err.internal
      | some hm =>
        let eid := freshEventId db
        let event : Event :=
          { id := eid, weekId := weekId, name := tmpl.name,
            datetime := weekEventDatetime weekStartDate we.dayOfWeek hm.1 hm.2 }
        let db1 := { db with events := db.events ++ [event] }
        match weekTaskRows (freshTaskId db1) eid cache tmpl.tasks with
        | none => .error Err.internal
        | some ts =>
          let db2 := { db1 with tasks := db1.tasks ++ ts }
          match expandWeekEntries weekId weekStartDate cache db2 rest with
          | .error e => .error e
          | .ok res => .ok (res.1, tmpl.name :: res.2)

/-- CreateFromWeekTemplateRequest (app/routers/templates.py lines 937-939). -/
structure CreateFromWeekTemplateRequest where
  weekTemplateId : String
  weekId : Nat
deriving DecidableEq, Repr

/-- create_from_week_template (app/routers/templates.py lines 942-1007):
resolve the week template and the week (404 when unknown), build the
best-effort team cache, then expand every entry, skipping entries whose
event template reference does not resolve. Returns the created event names
with the new state. -/
def create_from_week_template (db : DB) (data : CreateFromWeekTemplateRequest) :
    Except Err (DB × List String) :=
  match get_week_template_by_id db data.weekTemplateId with
  | none => .error Err.notFound
  | some weekTemplate =>
    match db.weeks.find? (fun w => w.id == data.weekId) with
    | none => .error Err.notFound
    | some week =>
      let cache := weekTeamCache db weekTemplate.events
      expandWeekEntries data.weekId week.startDate cache db weekTemplate.events

/-- Python truthiness of an optional string column (empty string is falsy). -/
def optStrTruthy : Option String → Bool
  | none => false
  | some s => s != ""

/-- The recipient resolution of check_auto_reminders
(app/services/scheduler.py lines 37-54): the direct assignee discord id,
then every team member discord id (extended without dedup), then the pool
members with a membership check before appending. -/
def reminderDiscordIds (db : DB) (task : Task) : List String :=
  let ids1 : List String :=
    if optTruthy task.assignedTo then
      match db.users.find? (fun u => some u.id == task.assignedTo) with
      | some u => if optStrTruthy u.discordId then [u.discordId.getD ""] else []
      | none => []
    else []
  let ids2 : List String :=
    if optTruthy task.assignedTeamId then
      ids1 ++ (db.users.filter (fun u => u.teamId == task.assignedTeamId)).filterMap
        (fun u => if optStrTruthy u.discordId then u.discordId else none)
    else ids1
  (db.assignments.filter (fun a => a.taskId == task.id)).foldl
    (fun ids a =>
      match db.users.find? (fun u => u.id == a.userId) with
      | some u =>
        match u.discordId with
        | some d => if d != "" && !ids.contains d then ids ++ [d] else ids
        | none => ids
      | none => ids)
    ids2

/-- The due-task selection of check_auto_reminders
(app/services/scheduler.py lines 24-29): status PENDING, the auto flag still
false, and the joined parent event datetime within [now, now + 24h]
(1440 abstract minutes). -/
def autoReminderDue (db : DB) (now : Int) (t : Task) : Bool :=
  t.status == TaskStatus.PENDING && !t.autoReminderSent &&
    ((db.events.find? (fun e => e.id == t.eventId)).any
      (fun e => now ≤ e.datetime && e.datetime ≤ now + 1440))

/-- One iteration of the reminder loop (app/services/scheduler.py lines
31-65): re-fetch the parent event (skipping when gone, impossible within one
snapshot for a joined task), resolve the recipients, and set
auto_reminder_sent true only when at least one recipient id resolved; with
no recipients the task row is left untouched. The send itself is an
out-of-scope collaborator. -/
def autoReminderStep (acc : DB) (t : Task) : DB :=
  match acc.events.find? (fun e => e.id == t.eventId) with
  | none => acc
  | some _ =>
    let ids := reminderDiscordIds acc t
    if !ids.isEmpty then
      updateTaskRow acc t.id (fun t2 => { t2 with autoReminderSent := true })
    else acc

/-- check_auto_reminders (app/services/scheduler.py lines 16-71): select the
due tasks once against the snapshot, then run the reminder loop over them. -/
def check_auto_reminders (db : DB) (now : Int) : DB :=
  (db.tasks.filter (autoReminderDue db now)).foldl
    (fun acc t => autoReminderStep acc t) db

/-! Concrete fixtures used by witnesses and counterexamples. -/

/-- A plain member user with no team. -/
def wMember : User :=
  { id := 1, role := Role.MEMBER, teamId := none, discordId := none,
    displayName := "member" }

/-- An admin user. -/
def wAdmin : User :=
  { id := 2, role := Role.ADMIN, teamId := none, discordId := none,
    displayName := "admin" }

/-- A task directly assigned to the member. -/
def wTask : Task :=
  { id := 10, eventId := 5, title := "bring snacks", assignedTo := some 1 }

/-- A one-task database. -/
def wDB : DB := { tasks := [wTask], users := [wMember, wAdmin] }

/-- A DONE task directly assigned to the member. -/
def c3Task : Task :=
  { id := 10, eventId := 5, title := "bring snacks", assignedTo := some 1,
    status := TaskStatus.DONE, completedBy := some 1 }

/-- A database holding one DONE task of the member. -/
def c3DB : DB := { tasks := [c3Task], users := [] }

/-- A DONE task with a direct assignee. -/
def c4Task : Task :=
  { id := 20, eventId := 5, title := "setup hall", status := TaskStatus.DONE,
    assignedTo := some 1, completedBy := some 1 }

/-- A database holding the DONE task and one pool row for it. -/
def c4DB : DB :=
  { tasks := [c4Task], users := [],
    assignments := [{ taskId := 20, userId := 3 }] }

/-- An update transmitting a different direct assignee. -/
def c4Data : TaskUpdate := { assignedTo := some (some 2) }

/-- An update transmitting a pool list with a duplicated user id. -/
def c10Data : TaskUpdate := { assignedUserIds := some [1, 1] }

/-- An update transmitting a duplicate-free pool list. -/
def c10DataOk : TaskUpdate := { assignedUserIds := some [7, 8] }

/-- Teams resolving every team name of the sweet_sunday template. -/
def c2Teams : List Team :=
  [{ id := 1, name := "Logistics" }, { id := 2, name := "Finance" },
   { id := 3, name := "Media" }]

/-- A database with all referenced teams present. -/
def c2DB : DB := { teams := c2Teams }

/-- A create-from-template request for the built-in sweet_sunday template. -/
def c2Req : CreateFromTemplateRequest :=
  { templateId := "sweet_sunday", weekId := 1, datetime := some 5000 }

/-- An active semester. -/
def c6Sem : Semester :=
  { id := 1, name := "Fall 2025", startDate := 0, endDate := 120,
    isActive := true }

/-- A database with an active semester and a task directly assigned to the
member, but an empty roster. -/
def c6DB : DB :=
  { semesters := [c6Sem],
    weeks := [{ id := 1, semesterId := 1, weekNumber := 1, startDate := 0,
                endDate := 6 }],
    events := [{ id := 1, weekId := 1, name := "Sweet Sunday",
                 datetime := 100 }],
    tasks := [{ id := 1, eventId := 1, title := "Order sweets",
                assignedTo := some 1 }],
    users := [wMember], roster := [] }

/-- A second, inactive semester row. -/
def c7SemB : Semester :=
  { id := 2, name := "Spring 2026", startDate := 130, endDate := 250,
    isActive := false }

/-- A database with one active and one inactive semester. -/
def c7DB : DB := { semesters := [c6Sem, c7SemB] }

/-- A semester-create payload with is_active true (the schema default). -/
def c7Create : SemesterCreate :=
  { name := "Summer 2026", startDate := 260, endDate := 330 }

/-- A semester-update payload transmitting is_active = true. -/
def c7Update : SemesterUpdate := { isActive := some true }

/-- A week anchoring the week-template expansion. -/
def c8Week : Week :=
  { id := 1, semesterId := 1, weekNumber := 2, startDate := 7, endDate := 13 }

/-- A database with the week but with no team rows at all. -/
def c8DB : DB := { weeks := [c8Week] }

/-- A create-from-week-template request for the built-in sweet_sunday_kk
template. -/
def c8Req : CreateFromWeekTemplateRequest :=
  { weekTemplateId := "sweet_sunday_kk", weekId := 1 }

/-- A member with a Discord id. -/
def c9User : User :=
  { id := 1, role := Role.MEMBER, teamId := none,
    discordId := some "12345678901234567", displayName := "m" }

/-- An event inside the next 24 hours of the scan instant 0. -/
def c9Event : Event := { id := 1, weekId := 1, name := "K&K", datetime := 1000 }

/-- A pending, unsent task with a resolvable recipient. -/
def c9TaskDue : Task :=
  { id := 1, eventId := 1, title := "order kookies", assignedTo := some 1 }

/-- A pending, unsent task with no assignee at all. -/
def c9TaskNoRec : Task := { id := 2, eventId := 1, title := "pick up karak" }

/-- A DONE task under the same event. -/
def c9TaskDone : Task :=
  { id := 3, eventId := 1, title := "poster", status := TaskStatus.DONE,
    assignedTo := some 1 }

/-- A pending task whose auto reminder was already sent. -/
def c9TaskSent : Task :=
  { id := 4, eventId := 1, title := "post", assignedTo := some 1,
    autoReminderSent := true }

/-- The scan database: one event, four tasks, one user. -/
def c9DB : DB :=
  { events := [c9Event],
    tasks := [c9TaskDue, c9TaskNoRec, c9TaskDone, c9TaskSent],
    users := [c9User] }

/-! Theorems for the claims. -/

/-- C1: for every task T and user U the mutation-authorization check
can_modify_task returns true iff U is ADMIN, or T.assigned_to = U.id, or
T.assigned_team_id is non-null and equals U.team_id, or a pool row
(T.id, U.id) exists — no other condition grants access — and the
comment-visibility check can_view_task decides by the same union. The
hypothesis excludes a zero team id, impossible for an autoincrement key,
which Python truthiness would treat as unassigned. -/
theorem c1_visibility_three_channel_union (db : DB) (t : Task) (u : User)
    (ht : t.assignedTeamId ≠ some 0) :
    (can_modify_task db t u = true ↔
      (u.role = Role.ADMIN ∨ t.assignedTo = some u.id ∨
        (∃ tid, t.assignedTeamId = some tid ∧ u.teamId = some tid) ∨
        (∃ a ∈ db.assignments, a.taskId = t.id ∧ a.userId = u.id)))
    ∧ can_view_task db t u = can_modify_task db t u := by
  have hpool : (db.assignments.find? (fun a => a.taskId == t.id && a.userId == u.id)).isSome = true ↔
      ∃ a ∈ db.assignments, a.taskId = t.id ∧ a.userId = u.id := by
    simp [List.find?_isSome]
  have hview : can_view_task db t u = can_modify_task db t u := by
    unfold can_view_task can_modify_task
    rcases h : db.assignments.find? (fun a => a.taskId == t.id && a.userId == u.id) with _ | a
    · simp [h]
    · simp [h]
  refine ⟨?_, hview⟩
  unfold can_modify_task
  have hteam : (optTruthy t.assignedTeamId && u.teamId == t.assignedTeamId) = true ↔
      (∃ tid, t.assignedTeamId = some tid ∧ u.teamId = some tid) := by
    rcases htm : t.assignedTeamId with _ | tid
    · simp [optTruthy]
    · have htid0 : tid ≠ 0 := by
        intro h0
        exact ht (by rw [htm, h0])
      constructor
      · intro h
        simp [optTruthy] at h
        exact ⟨tid, rfl, by simpa using h.2⟩
      · rintro ⟨tid2, h1, h2⟩
        cases h1
        simp [optTruthy, htid0, h2]
  have hmatch : (match db.assignments.find? (fun a => a.taskId == t.id && a.userId == u.id) with
      | some _ => true
      | none => false) =
      (db.assignments.find? (fun a => a.taskId == t.id && a.userId == u.id)).isSome := by
    cases hx : db.assignments.find? (fun a => a.taskId == t.id && a.userId == u.id) <;>
      simp [hx]
  by_cases h1 : u.role = Role.ADMIN
  · simp [h1]
  · by_cases h2 : t.assignedTo = some u.id
    · simp [h1, h2]
    · by_cases h3 : ∃ tid, t.assignedTeamId = some tid ∧ u.teamId = some tid
      · have hb : (optTruthy t.assignedTeamId && u.teamId == t.assignedTeamId) = true :=
          hteam.mpr h3
        simp [h1, h2, hb, h3]
      · have hb : (optTruthy t.assignedTeamId && u.teamId == t.assignedTeamId) = false :=
          Bool.eq_false_iff.mpr (fun hbb => h3 (hteam.mp hbb))
        rw [hmatch]
        simp [h1, h2, hb, h3, hpool]

/-- Witness for C1 at a concrete database: the member may modify the task
directly assigned to them, and can_view_task agrees with can_modify_task. -/
theorem c1_witness :
    (can_modify_task wDB wTask wMember = true ↔
      (wMember.role = Role.ADMIN ∨ wTask.assignedTo = some wMember.id ∨
        (∃ tid, wTask.assignedTeamId = some tid ∧ wMember.teamId = some tid) ∨
        (∃ a ∈ wDB.assignments, a.taskId = wTask.id ∧ a.userId = wMember.id)))
    ∧ can_view_task wDB wTask wMember = can_modify_task wDB wTask wMember :=
  c1_visibility_three_channel_union wDB wTask wMember (by decide)

/-- Helper: find? by id after an id-preserving update of the matching rows. -/
theorem find?_map_ite (tasks : List Task) (i : Nat) (f : Task → Task)
    (hf : ∀ t ∈ tasks, t.id = i → (f t).id = i) :
    (tasks.map (fun t => if t.id == i then f t else t)).find? (fun t => t.id == i) =
      (tasks.find? (fun t => t.id == i)).map f := by
  induction tasks with
  | nil => rfl
  | cons t ts ih =>
    by_cases h : t.id = i
    · have hfid : (f t).id = i := hf t (List.mem_cons_self t ts) h
      simp [List.find?_cons, h, hfid]
    · have hb : (t.id == i) = false := by simp [h]
      simp only [List.map_cons, List.find?_cons, hb, Bool.false_eq_true, if_false]
      exact ih (fun t2 ht2 hid => hf t2 (List.mem_cons_of_mem t ht2) hid)

/-- Helper: findTask after updateTaskRow with an id-preserving update. -/
theorem findTask_updateTaskRow (db : DB) (i : Nat) (f : Task → Task)
    (hf : ∀ t ∈ db.tasks, t.id = i → (f t).id = i) :
    findTask (updateTaskRow db i f) i = (findTask db i).map f :=
  find?_map_ite db.tasks i f hf

/-- C3 counterexample: on a DONE task, a single mark-cannot-do call moves the
task directly to CANNOT_DO — no UNDO transition through PENDING is required,
because mark_task_cannot_do never inspects the current status. -/
theorem c3_counterexample :
    c3Task.status = TaskStatus.DONE ∧
    mark_task_cannot_do c3DB 10 (some "supplier closed") wMember =
      .ok { c3DB with tasks := [{ c3Task with
                                    status := TaskStatus.CANNOT_DO,
                                    cannotDoReason := some "supplier closed",
                                    completedBy := some 1 }] } := by
  constructor
  · rfl
  · rfl

/-- C3 amended: mark_done and mark_cannot_do never inspect the current
status: for any existing task and authorized actor — whatever the stored
status, DONE and CANNOT_DO included — mark_cannot_do sets CANNOT_DO and
mark_done sets DONE in one operation, so the two states are directly
inter-reachable; only undo returns the task to PENDING, clearing
cannot_do_reason and completed_by. -/
theorem c3_amended_direct_transitions (db : DB) (tid : Nat) (u : User) (t : Task)
    (r : String) (hfind : findTask db tid = some t)
    (hauth : can_modify_task db t u = true) :
    (∃ db1, mark_task_cannot_do db tid (some r) u = .ok db1 ∧
      findTask db1 tid = some { t with
                                status := TaskStatus.CANNOT_DO,
                                cannotDoReason := some r,
                                completedBy := some u.id })
    ∧ (∃ db2, mark_task_done db tid u = .ok db2 ∧
      findTask db2 tid = some { t with
                                status := TaskStatus.DONE,
                                completedBy := some u.id })
    ∧ (∃ db3, undo_task_status db tid u = .ok db3 ∧
      findTask db3 tid = some { t with
                                status := TaskStatus.PENDING,
                                cannotDoReason := none,
                                completedBy := none }) := by
  refine ⟨?_, ?_, ?_⟩
  · have h1 : mark_task_cannot_do db tid (some r) u =
        .ok (updateTaskRow db tid (fun t2 =>
          { t2 with status := TaskStatus.CANNOT_DO, cannotDoReason := some r,
                    completedBy := some u.id })) := by
      simp [mark_task_cannot_do, hfind, hauth]
    refine ⟨_, h1, ?_⟩
    rw [findTask_updateTaskRow db tid (fun t2 =>
      { t2 with status := TaskStatus.CANNOT_DO, cannotDoReason := some r,
                completedBy := some u.id }) (fun t2 _ hid => hid), hfind]
    rfl
  · have h1 : mark_task_done db tid u =
        .ok (updateTaskRow db tid (fun t2 =>
          { t2 with status := TaskStatus.DONE, completedBy := some u.id })) := by
      simp [mark_task_done, hfind, hauth]
    refine ⟨_, h1, ?_⟩
    rw [findTask_updateTaskRow db tid (fun t2 =>
      { t2 with status := TaskStatus.DONE,
                completedBy := some u.id }) (fun t2 _ hid => hid), hfind]
    rfl
  · have h1 : undo_task_status db tid u =
        .ok (updateTaskRow db tid (fun t2 =>
          { t2 with status := TaskStatus.PENDING, cannotDoReason := none,
                    completedBy := none })) := by
      simp [undo_task_status, hfind, hauth]
    refine ⟨_, h1, ?_⟩
    rw [findTask_updateTaskRow db tid (fun t2 =>
      { t2 with status := TaskStatus.PENDING, cannotDoReason := none,
                completedBy := none }) (fun t2 _ hid => hid), hfind]
    rfl

/-- Witness for C3 at the concrete DONE task: the direct transitions evaluate
as stated. -/
theorem c3_witness :
    (∃ db1, mark_task_cannot_do c3DB 10 (some "no stock") wMember = .ok db1 ∧
      findTask db1 10 = some { c3Task with
                               status := TaskStatus.CANNOT_DO,
                               cannotDoReason := some "no stock",
                               completedBy := some wMember.id })
    ∧ (∃ db2, mark_task_done c3DB 10 wMember = .ok db2 ∧
      findTask db2 10 = some { c3Task with
                               status := TaskStatus.DONE,
                               completedBy := some wMember.id })
    ∧ (∃ db3, undo_task_status c3DB 10 wMember = .ok db3 ∧
      findTask db3 10 = some { c3Task with
                               status := TaskStatus.PENDING,
                               cannotDoReason := none,
                               completedBy := none }) :=
  c3_amended_direct_transitions c3DB 10 wMember c3Task "no stock" (by rfl) (by rfl)

/-- C5 counterexample: a whitespace-only cannot-do reason is accepted, not
rejected: the request schema is a bare `reason: str` with no content
validation, so the task transitions to CANNOT_DO with the whitespace reason
stored. -/
theorem c5_counterexample :
    mark_task_cannot_do wDB 10 (some " ") wMember =
      .ok { wDB with tasks := [{ wTask with
                                   status := TaskStatus.CANNOT_DO,
                                   cannotDoReason := some " ",
                                   completedBy := some 1 }] } := by
  rfl

/-- C5 amended: a request body missing the reason field is rejected by schema
validation with the state unchanged, but any transmitted reason string —
empty or whitespace-only included — is accepted and the CANNOT_DO transition
occurs, storing the reason verbatim. -/
theorem c5_amended_reason_validation (db : DB) (tid : Nat) (u : User) (t : Task)
    (r : String) (hfind : findTask db tid = some t)
    (hauth : can_modify_task db t u = true) :
    mark_task_cannot_do db tid none u = .error (Err.validation [])
    ∧ (∃ db1, mark_task_cannot_do db tid (some r) u = .ok db1 ∧
        findTask db1 tid = some { t with
                                  status := TaskStatus.CANNOT_DO,
                                  cannotDoReason := some r,
                                  completedBy := some u.id }) := by
  refine ⟨rfl, ?_⟩
  have h1 : mark_task_cannot_do db tid (some r) u =
      .ok (updateTaskRow db tid (fun t2 =>
        { t2 with status := TaskStatus.CANNOT_DO, cannotDoReason := some r,
                  completedBy := some u.id })) := by
    simp [mark_task_cannot_do, hfind, hauth]
  refine ⟨_, h1, ?_⟩
  rw [findTask_updateTaskRow db tid (fun t2 =>
    { t2 with status := TaskStatus.CANNOT_DO, cannotDoReason := some r,
              completedBy := some u.id }) (fun t2 _ hid => hid), hfind]
  rfl

/-- Witness for C5 at the concrete PENDING task with the empty-string
reason. -/
theorem c5_witness :
    mark_task_cannot_do wDB 10 none wMember = .error (Err.validation [])
    ∧ (∃ db1, mark_task_cannot_do wDB 10 (some "") wMember = .ok db1 ∧
        findTask db1 10 = some { wTask with
                                 status := TaskStatus.CANNOT_DO,
                                 cannotDoReason := some "",
                                 completedBy := some wMember.id }) :=
  c5_amended_reason_validation wDB 10 wMember wTask "" (by rfl) (by rfl)

/-- Helper: taskUpdateApply keeps the row id. -/
theorem taskUpdateApply_id (data : TaskUpdate) (t : Task) :
    (taskUpdateApply data t).id = t.id := by
  unfold taskUpdateApply
  split <;> rfl

/-- Helper: field-level description of taskUpdateApply — absent fields keep
their stored values, transmitted fields take the transmitted value, and the
columns not in the schema are untouched (status, completed_by and
cannot_do_reason are described separately). -/
theorem taskUpdateApply_fields (data : TaskUpdate) (t : Task) :
    (taskUpdateApply data t).eventId = t.eventId ∧
    (taskUpdateApply data t).title = data.title.getD t.title ∧
    (taskUpdateApply data t).description = data.description.getD t.description ∧
    (taskUpdateApply data t).taskType = data.taskType.getD t.taskType ∧
    (taskUpdateApply data t).assignedTo = data.assignedTo.getD t.assignedTo ∧
    (taskUpdateApply data t).assignedTeamId = data.assignedTeamId.getD t.assignedTeamId ∧
    (taskUpdateApply data t).reminderTime = t.reminderTime ∧
    (taskUpdateApply data t).reminderSent = t.reminderSent ∧
    (taskUpdateApply data t).autoReminderSent = t.autoReminderSent := by
  unfold taskUpdateApply
  split <;> simp

/-- Helper: the reset fires exactly when an assignment field changes on a
non-PENDING task. -/
theorem taskUpdateApply_reset (data : TaskUpdate) (t : Task)
    (hch : taskUpdateAssignmentChanged data t = true)
    (hst : t.status ≠ TaskStatus.PENDING) :
    (taskUpdateApply data t).status = TaskStatus.PENDING ∧
    (taskUpdateApply data t).completedBy = none ∧
    (taskUpdateApply data t).cannotDoReason = none := by
  have hc : (taskUpdateAssignmentChanged data t &&
      t.status != TaskStatus.PENDING) = true := by
    simp [hch, hst]
  unfold taskUpdateApply
  simp [hc]

/-- Helper: without an assignment change the reset never fires. -/
theorem taskUpdateApply_noreset (data : TaskUpdate) (t : Task)
    (hch : taskUpdateAssignmentChanged data t = false) :
    (taskUpdateApply data t).status = t.status ∧
    (taskUpdateApply data t).completedBy = t.completedBy ∧
    (taskUpdateApply data t).cannotDoReason = t.cannotDoReason := by
  unfold taskUpdateApply
  simp [hch]

/-- Helper: a transmitted different value makes the change test true. -/
theorem assignmentChanged_true_of (data : TaskUpdate) (t : Task)
    (h : (∃ v, data.assignedTo = some v ∧ v ≠ t.assignedTo) ∨
         (∃ w, data.assignedTeamId = some w ∧ w ≠ t.assignedTeamId)) :
    taskUpdateAssignmentChanged data t = true := by
  unfold taskUpdateAssignmentChanged
  rcases h with ⟨v, hv, hne⟩ | ⟨w, hw, hne⟩
  · rw [hv]
    simp [hne]
  · rw [hw]
    simp [hne]

/-- Helper: absent or same-valued assignment fields make the change test
false. -/
theorem assignmentChanged_false_of (data : TaskUpdate) (t : Task)
    (h1 : data.assignedTo = none ∨ data.assignedTo = some t.assignedTo)
    (h2 : data.assignedTeamId = none ∨ data.assignedTeamId = some t.assignedTeamId) :
    taskUpdateAssignmentChanged data t = false := by
  unfold taskUpdateAssignmentChanged
  rcases h1 with h1 | h1 <;> rcases h2 with h2 | h2 <;> rw [h1, h2] <;> simp

/-- Helper: characterization of a successful update_task call. -/
theorem update_task_ok (db : DB) (tid : Nat) (data : TaskUpdate) (t : Task)
    (hfind : findTask db tid = some t) (db1 : DB)
    (hok : update_task db tid data = .ok db1) :
    findTask db1 tid = some (taskUpdateApply data t) ∧
    (data.assignedUserIds = none → db1.assignments = db.assignments) ∧
    (∀ ids, data.assignedUserIds = some ids →
      ids.Nodup ∧
      db1.assignments = db.assignments.filter (fun a => a.taskId != tid) ++
        ids.map (fun uid => { taskId := tid, userId := uid })) := by
  have htid : t.id = tid := by
    have := List.find?_some hfind
    simpa using this
  have htasks : db1.tasks =
      db.tasks.map (fun t3 => if t3.id == tid then taskUpdateApply data t else t3) ∧
      (data.assignedUserIds = none → db1.assignments = db.assignments) ∧
      (∀ ids, data.assignedUserIds = some ids →
        ids.Nodup ∧
        db1.assignments = db.assignments.filter (fun a => a.taskId != tid) ++
          ids.map (fun uid => { taskId := tid, userId := uid })) := by
    unfold update_task at hok
    rw [hfind] at hok
    cases hids : data.assignedUserIds with
    | none =>
      rw [hids] at hok
      simp only [Except.ok.injEq] at hok
      subst hok
      exact ⟨rfl, fun _ => rfl, fun ids h => Option.noConfusion h⟩
    | some ids =>
      rw [hids] at hok
      by_cases hnd : ids.Nodup
      · simp only [if_pos hnd, Except.ok.injEq] at hok
        subst hok
        refine ⟨rfl, fun h => Option.noConfusion h, ?_⟩
        intro ids2 h2
        injection h2 with h3
        subst h3
        exact ⟨hnd, rfl⟩
      · simp only [if_neg hnd] at hok
        exact absurd hok (by simp)
  refine ⟨?_, htasks.2.1, htasks.2.2⟩
  have hfupd : findTask db1 tid =
      (db.tasks.find? (fun t3 => t3.id == tid)).map (fun _ => taskUpdateApply data t) := by
    unfold findTask
    rw [htasks.1]
    exact find?_map_ite db.tasks tid (fun _ => taskUpdateApply data t)
      (fun t3 _ _ => by rw [taskUpdateApply_id, htid])
  rw [hfupd]
  unfold findTask at hfind
  rw [hfind]
  rfl

/-- C4: for a task whose status is not PENDING, an admin update transmitting
assigned_to or assigned_team_id with a value different from the stored one
resets the status to PENDING and clears completed_by and cannot_do_reason in
the same operation; transmitting assigned_to equal to the stored value (with
assigned_team_id absent or unchanged) does not trigger the reset, and a
change of the pool list alone never does — the second part holds for any
stored status. -/
theorem c4_reassignment_resets_status (db : DB) (tid : Nat) (data : TaskUpdate)
    (t : Task) (hfind : findTask db tid = some t) :
    ((t.status ≠ TaskStatus.PENDING ∧
        ((∃ v, data.assignedTo = some v ∧ v ≠ t.assignedTo) ∨
         (∃ w, data.assignedTeamId = some w ∧ w ≠ t.assignedTeamId))) →
      ∀ db1, update_task db tid data = .ok db1 →
        ∃ t2, findTask db1 tid = some t2 ∧ t2.status = TaskStatus.PENDING ∧
          t2.completedBy = none ∧ t2.cannotDoReason = none)
    ∧ (((data.assignedTo = none ∨ data.assignedTo = some t.assignedTo) ∧
        (data.assignedTeamId = none ∨ data.assignedTeamId = some t.assignedTeamId)) →
      ∀ db1, update_task db tid data = .ok db1 →
        ∃ t2, findTask db1 tid = some t2 ∧ t2.status = t.status ∧
          t2.completedBy = t.completedBy ∧
          t2.cannotDoReason = t.cannotDoReason) := by
  constructor
  · rintro ⟨hst, hch⟩ db1 hok
    obtain ⟨hf2, -, -⟩ := update_task_ok db tid data t hfind db1 hok
    obtain ⟨g1, g2, g3⟩ :=
      taskUpdateApply_reset data t (assignmentChanged_true_of data t hch) hst
    exact ⟨_, hf2, g1, g2, g3⟩
  · rintro ⟨h1, h2⟩ db1 hok
    obtain ⟨hf2, -, -⟩ := update_task_ok db tid data t hfind db1 hok
    obtain ⟨g1, g2, g3⟩ :=
      taskUpdateApply_noreset data t (assignmentChanged_false_of data t h1 h2)
    exact ⟨_, hf2, g1, g2, g3⟩

/-- Witness for C4 at the concrete DONE task: among others, reassigning the
task to user 2 resets it to PENDING. -/
theorem c4_witness :
    ((c4Task.status ≠ TaskStatus.PENDING ∧
        ((∃ v, c4Data.assignedTo = some v ∧ v ≠ c4Task.assignedTo) ∨
         (∃ w, c4Data.assignedTeamId = some w ∧ w ≠ c4Task.assignedTeamId))) →
      ∀ db1, update_task c4DB 20 c4Data = .ok db1 →
        ∃ t2, findTask db1 20 = some t2 ∧ t2.status = TaskStatus.PENDING ∧
          t2.completedBy = none ∧ t2.cannotDoReason = none)
    ∧ (((c4Data.assignedTo = none ∨ c4Data.assignedTo = some c4Task.assignedTo) ∧
        (c4Data.assignedTeamId = none ∨
          c4Data.assignedTeamId = some c4Task.assignedTeamId)) →
      ∀ db1, update_task c4DB 20 c4Data = .ok db1 →
        ∃ t2, findTask db1 20 = some t2 ∧ t2.status = c4Task.status ∧
          t2.completedBy = c4Task.completedBy ∧
          t2.cannotDoReason = c4Task.cannotDoReason) :=
  c4_reassignment_resets_status c4DB 20 c4Data c4Task (by rfl)

/-- C10 counterexample: a transmitted pool list with a duplicated user id
does not yield one row per listed id — the insert violates the unique
(task_id, user_id) constraint, the whole update fails, and no success state
exists. -/
theorem c10_counterexample :
    update_task c4DB 20 c10Data = .error Err.conflict ∧
    ∀ db1, update_task c4DB 20 c10Data ≠ .ok db1 := by
  refine ⟨rfl, ?_⟩
  intro db1 h
  rw [show update_task c4DB 20 c10Data = .error Err.conflict from rfl] at h
  exact Except.noConfusion h

/-- C10 amended: with assigned_user_ids absent the pool is untouched; a
transmitted duplicate-free list (the empty list included) replaces the pool
with exactly one row per listed user id, keeping other tasks' rows; a list
with a duplicated id fails the whole update on the unique constraint; and
fields absent from the request are never modified. -/
theorem c10_amended_pool_replacement (db : DB) (tid : Nat) (data : TaskUpdate)
    (t : Task) (hfind : findTask db tid = some t) :
    (data.assignedUserIds = none →
      ∀ db1, update_task db tid data = .ok db1 →
        db1.assignments = db.assignments)
    ∧ (∀ ids, data.assignedUserIds = some ids → ids.Nodup →
        ∀ db1, update_task db tid data = .ok db1 →
          db1.assignments = db.assignments.filter (fun a => a.taskId != tid) ++
            ids.map (fun uid => { taskId := tid, userId := uid }) ∧
          ∀ uid, db1.assignments.countP
              (fun a => a.taskId == tid && a.userId == uid) =
            if uid ∈ ids then 1 else 0)
    ∧ (∀ ids, data.assignedUserIds = some ids → ¬ids.Nodup →
        update_task db tid data = .error Err.conflict)
    ∧ (∀ db1, update_task db tid data = .ok db1 →
        ∃ t2, findTask db1 tid = some t2 ∧
          (data.title = none → t2.title = t.title) ∧
          (data.description = none → t2.description = t.description) ∧
          (data.taskType = none → t2.taskType = t.taskType) ∧
          (data.assignedTo = none → t2.assignedTo = t.assignedTo) ∧
          (data.assignedTeamId = none → t2.assignedTeamId = t.assignedTeamId) ∧
          t2.id = t.id ∧ t2.eventId = t.eventId ∧
          t2.reminderTime = t.reminderTime ∧ t2.reminderSent = t.reminderSent ∧
          t2.autoReminderSent = t.autoReminderSent) := by
  refine ⟨?_, ?_, ?_, ?_⟩
  · intro hnone db1 hok
    exact (update_task_ok db tid data t hfind db1 hok).2.1 hnone
  · intro ids hids hnd db1 hok
    obtain ⟨-, -, hsome⟩ := update_task_ok db tid data t hfind db1 hok
    obtain ⟨-, heq⟩ := hsome ids hids
    refine ⟨heq, ?_⟩
    intro uid
    rw [heq, List.countP_append]
    have hz : (db.assignments.filter (fun a => a.taskId != tid)).countP
        (fun a => a.taskId == tid && a.userId == uid) = 0 := by
      apply List.countP_eq_zero.mpr
      intro a ha
      have h2 := (List.mem_filter.mp ha).2
      simp only [bne_iff_ne, ne_eq] at h2
      simp [h2]
    have hm : ((ids.map (fun u2 =>
        ({ taskId := tid, userId := u2 } : TaskAssignment))).countP
          (fun a => a.taskId == tid && a.userId == uid)) = ids.count uid := by
      rw [List.countP_map]
      have hfe : ((fun a => a.taskId == tid && a.userId == uid) ∘
          (fun u2 => ({ taskId := tid, userId := u2 } : TaskAssignment))) =
          (fun u2 => u2 == uid) := by
        funext u2
        simp
      rw [hfe]
      rfl
    rw [hz, hm]
    by_cases hmem : uid ∈ ids
    · rw [List.count_eq_one_of_mem hnd hmem]
      simp [hmem]
    · rw [List.count_eq_zero_of_not_mem hmem]
      simp [hmem]
  · intro ids hids hnd
    unfold update_task
    rw [hfind, hids]
    exact if_neg hnd
  · intro db1 hok
    obtain ⟨hf2, -, -⟩ := update_task_ok db tid data t hfind db1 hok
    obtain ⟨g1, g2, g3, g4, g5, g6, g7, g8, g9⟩ := taskUpdateApply_fields data t
    refine ⟨_, hf2, ?_, ?_, ?_, ?_, ?_, taskUpdateApply_id data t, g1, g7, g8, g9⟩
    · intro h
      rw [g2, h]
      rfl
    · intro h
      rw [g3, h]
      rfl
    · intro h
      rw [g4, h]
      rfl
    · intro h
      rw [g5, h]
      rfl
    · intro h
      rw [g6, h]
      rfl

/-- Witness for C10 at the concrete task: replacing the pool with the
duplicate-free list [7, 8]. -/
theorem c10_witness :
    (c10DataOk.assignedUserIds = none →
      ∀ db1, update_task c4DB 20 c10DataOk = .ok db1 →
        db1.assignments = c4DB.assignments)
    ∧ (∀ ids, c10DataOk.assignedUserIds = some ids → ids.Nodup →
        ∀ db1, update_task c4DB 20 c10DataOk = .ok db1 →
          db1.assignments = c4DB.assignments.filter (fun a => a.taskId != 20) ++
            ids.map (fun uid => { taskId := 20, userId := uid }) ∧
          ∀ uid, db1.assignments.countP
              (fun a => a.taskId == 20 && a.userId == uid) =
            if uid ∈ ids then 1 else 0)
    ∧ (∀ ids, c10DataOk.assignedUserIds = some ids → ¬ids.Nodup →
        update_task c4DB 20 c10DataOk = .error Err.conflict)
    ∧ (∀ db1, update_task c4DB 20 c10DataOk = .ok db1 →
        ∃ t2, findTask db1 20 = some t2 ∧
          (c10DataOk.title = none → t2.title = c4Task.title) ∧
          (c10DataOk.description = none → t2.description = c4Task.description) ∧
          (c10DataOk.taskType = none → t2.taskType = c4Task.taskType) ∧
          (c10DataOk.assignedTo = none → t2.assignedTo = c4Task.assignedTo) ∧
          (c10DataOk.assignedTeamId = none →
            t2.assignedTeamId = c4Task.assignedTeamId) ∧
          t2.id = c4Task.id ∧ t2.eventId = c4Task.eventId ∧
          t2.reminderTime = c4Task.reminderTime ∧
          t2.reminderSent = c4Task.reminderSent ∧
          t2.autoReminderSent = c4Task.autoReminderSent) :=
  c10_amended_pool_replacement c4DB 20 c10DataOk c4Task (by rfl)

/-- C6: a non-admin user without a RosterMember row for the active semester
gets a dashboard with zero weeks — whatever direct, team or pool task
assignments the database holds for that user — while the semester name and
id are still reported. -/
theorem c6_roster_gate_hides_weeks (db : DB) (u : User) (today : Int)
    (sem : Semester) (hrole : u.role ≠ Role.ADMIN)
    (hsem : db.semesters.find? (fun s => s.isActive) = some sem)
    (hros : ∀ r ∈ db.roster, ¬(r.semesterId = sem.id ∧ r.userId = u.id)) :
    get_dashboard db u today =
      { semesterName := some sem.name, semesterId := some sem.id,
        weeks := [], userRole := u.role } := by
  unfold get_dashboard
  rw [hsem]
  have h1 : (u.role != Role.ADMIN) = true := by
    simp [hrole]
  have h2 : (db.roster.find? (fun r =>
      r.semesterId == sem.id && r.userId == u.id)) = none := by
    rw [List.find?_eq_none]
    intro r hr hc
    exact hros r hr (by simpa using hc)
  simp [h1, h2]

/-- Witness for C6: the member holds a direct task assignment in the active
semester, is absent from the roster, and gets zero weeks with the semester
name reported. -/
theorem c6_witness :
    get_dashboard c6DB wMember 3 =
      { semesterName := some c6Sem.name, semesterId := some c6Sem.id,
        weeks := [], userRole := wMember.role } :=
  c6_roster_gate_hides_weeks c6DB wMember 3 c6Sem (by decide) (by rfl) (by decide)

/-- Helper: a foldl of max over semester ids is at least its initial value. -/
theorem foldl_max_init_le (l : List Semester) (a : Nat) :
    a ≤ l.foldl (fun m s => max m s.id) a := by
  induction l generalizing a with
  | nil => exact le_refl a
  | cons s l ih => exact le_trans (le_max_left a s.id) (ih (max a s.id))

/-- Helper: every member id is bounded by the foldl of max over the ids. -/
theorem mem_id_le_foldl_max (l : List Semester) (a : Nat) :
    ∀ s ∈ l, s.id ≤ l.foldl (fun m s2 => max m s2.id) a := by
  induction l generalizing a with
  | nil =>
    intro s h
    cases h
  | cons s0 l ih =>
    intro s hs
    rcases List.mem_cons.mp hs with rfl | hmem
    · exact le_trans (le_max_right a s.id) (foldl_max_init_le l (max a s.id))
    · exact ih (max a s0.id) s hmem

/-- Helper: countP over a mapped list via a pointwise description. -/
theorem countP_map_eq (l : List Semester) (f : Semester → Semester)
    (p : Semester → Bool) (q : Semester → Bool) (h : ∀ s, p (f s) = q s) :
    (l.map f).countP p = l.countP q := by
  induction l with
  | nil => rfl
  | cons s l ih => simp [List.countP_cons, ih, h s]

/-- Helper: counting rows by id equals counting the id in the projected
list. -/
theorem countP_id_eq_count (l : List Semester) (x : Nat) :
    l.countP (fun s => s.id == x) = (l.map (fun s => s.id)).count x := by
  show l.countP (fun s => s.id == x) =
    (l.map (fun s => s.id)).countP (fun i => i == x)
  rw [List.countP_map]
  rfl

/-- Helper: an inactive prefix plus one active fresh-id row has exactly one
active row, the fresh one. -/
theorem single_active_append (l : List Semester) (newSem : Semester)
    (hnew : newSem.isActive = true) (hina : ∀ s ∈ l, s.isActive = false)
    (hne : ∀ s ∈ l, s.id ≠ newSem.id) :
    ((l ++ [newSem]).countP (fun s => s.isActive) = 1 ∧
     ∀ s ∈ l ++ [newSem], (s.isActive = true ↔ s.id = newSem.id)) := by
  constructor
  · rw [List.countP_append,
      List.countP_eq_zero.mpr (fun s hs => by simp [hina s hs])]
    simp [List.countP_cons, hnew]
  · intro s hs
    rcases List.mem_append.mp hs with hmem | hmem
    · rw [hina s hmem]
      simp only [Bool.false_eq_true, false_iff]
      exact hne s hmem
    · have hseq : s = newSem := by simpa using hmem
      subst hseq
      simp [hnew]

/-- C7: after create_semester with is_active = true, and after an
update_semester call transmitting is_active = true, exactly one semester is
active — the one just created resp. updated — so in particular at most one;
the update part assumes distinct primary keys, which the storage layer
guarantees. -/
theorem c7_single_active_semester (db : DB) (data : SemesterCreate)
    (semesterId : Nat) (upd : SemesterUpdate) :
    (data.isActive = true →
      ((create_semester db data).1.semesters.countP (fun s => s.isActive) = 1 ∧
       ∀ s ∈ (create_semester db data).1.semesters,
         (s.isActive = true ↔ s.id = (create_semester db data).2)))
    ∧ (upd.isActive = some true →
       (db.semesters.map (fun s => s.id)).Nodup →
       ∀ db1, update_semester db semesterId upd = .ok db1 →
         (db1.semesters.countP (fun s => s.isActive) = 1 ∧
          ∀ s ∈ db1.semesters, (s.isActive = true ↔ s.id = semesterId))) := by
  constructor
  · intro hact
    have hres : (create_semester db data).1.semesters =
        (db.semesters.map (fun s2 =>
          if s2.isActive then { s2 with isActive := false } else s2)) ++
        [{ id := (create_semester db data).2, name := data.name,
           startDate := data.startDate, endDate := data.endDate,
           isActive := data.isActive }] := by
      unfold create_semester
      rw [hact]
      rfl
    have hmain := single_active_append
      (db.semesters.map (fun s2 =>
        if s2.isActive then { s2 with isActive := false } else s2))
      { id := (create_semester db data).2, name := data.name,
        startDate := data.startDate, endDate := data.endDate,
        isActive := data.isActive }
      (by simpa using hact)
      (by
        intro s hs
        obtain ⟨s0, hs0, rfl⟩ := List.mem_map.mp hs
        by_cases h : s0.isActive <;> simp [h])
      (by
        intro s hs
        have hb := mem_id_le_foldl_max
          (db.semesters.map (fun s2 =>
            if s2.isActive then { s2 with isActive := false } else s2)) 0 s hs
        have hsid : (create_semester db data).2 =
            (db.semesters.map (fun s2 =>
              if s2.isActive then { s2 with isActive := false } else s2)).foldl
              (fun m s2 => max m s2.id) 0 + 1 := by
          unfold create_semester
          rw [hact]
          rfl
        simp only [hsid]
        omega)
    rw [hres]
    exact hmain
  · intro hup hnodup db1 hok
    unfold update_semester at hok
    cases hfind : db.semesters.find? (fun s => s.id == semesterId) with
    | none =>
      rw [hfind] at hok
      exact absurd hok (by simp)
    | some sem =>
      rw [hfind] at hok
      rw [hup] at hok
      simp only [beq_self_eq_true, if_true, Except.ok.injEq] at hok
      subst hok
      have hsem_mem := List.mem_of_find?_eq_some hfind
      have hsem_id : sem.id = semesterId := by
        have := List.find?_some hfind
        simpa using this
      have hrow : ∀ s0 : Semester,
          (((fun s : Semester => if s.id == semesterId then
              { s with name := upd.name.getD s.name,
                       startDate := upd.startDate.getD s.startDate,
                       endDate := upd.endDate.getD s.endDate,
                       isActive := (some true).getD s.isActive }
            else s) ∘
            (fun s : Semester =>
              if s.isActive && s.id != semesterId then { s with isActive := false }
              else s)) s0).isActive = (s0.id == semesterId) ∧
          (((fun s : Semester => if s.id == semesterId then
              { s with name := upd.name.getD s.name,
                       startDate := upd.startDate.getD s.startDate,
                       endDate := upd.endDate.getD s.endDate,
                       isActive := (some true).getD s.isActive }
            else s) ∘
            (fun s : Semester =>
              if s.isActive && s.id != semesterId then { s with isActive := false }
              else s)) s0).id = s0.id := by
        intro s0
        rw [Function.comp_apply]
        by_cases hid : s0.id = semesterId
        · have hc : (s0.isActive && s0.id != semesterId) = false := by
            simp [hid]
          rw [hc]
          simp [hid]
        · have hb : (s0.id == semesterId) = false := by
            simp [hid]
          by_cases ha : s0.isActive
          · have hc : (s0.isActive && s0.id != semesterId) = true := by
              simp [ha, hid]
            rw [hc]
            simp [hb, hid]
          · have hc : (s0.isActive && s0.id != semesterId) = false := by
              simp [ha]
            rw [hc]
            simp [hb, hid, ha]
      constructor
      · simp only [List.map_map]
        rw [countP_map_eq _ _ _ (fun s0 => s0.id == semesterId)
          (fun s0 => (hrow s0).1)]
        rw [countP_id_eq_count]
        exact List.count_eq_one_of_mem hnodup
          (List.mem_map.mpr ⟨sem, hsem_mem, hsem_id⟩)
      · intro s hs
        simp only [List.map_map] at hs
        obtain ⟨s0, hs0, rfl⟩ := List.mem_map.mp hs
        rw [(hrow s0).1, (hrow s0).2]
        simp

/-- Witness for C7: creating an active semester over the active Fall one and
activating the second semester of the two-row database. -/
theorem c7_witness :
    (c7Create.isActive = true →
      ((create_semester c7DB c7Create).1.semesters.countP (fun s => s.isActive) = 1 ∧
       ∀ s ∈ (create_semester c7DB c7Create).1.semesters,
         (s.isActive = true ↔ s.id = (create_semester c7DB c7Create).2)))
    ∧ (c7Update.isActive = some true →
       (c7DB.semesters.map (fun s => s.id)).Nodup →
       ∀ db1, update_semester c7DB 2 c7Update = .ok db1 →
         (db1.semesters.countP (fun s => s.isActive) = 1 ∧
          ∀ s ∈ db1.semesters, (s.isActive = true ↔ s.id = 2))) :=
  c7_single_active_semester c7DB c7Create 2 c7Update

/-- Helper: an unresolved name already collected stays in the unresolved
list through the rest of the pre-validation loop. -/
theorem resolveTeamsGo_missing_mono (teams : List Team)
    (stubs : List TaskTemplateSchema) :
    ∀ (cache : List (String × Nat)) (missing : List String) (nm : String),
      nm ∈ missing → nm ∈ (resolveTeamsGo teams cache missing stubs).2 := by
  induction stubs with
  | nil =>
    intro cache missing nm h
    simpa [resolveTeamsGo] using h
  | cons stub rest ih =>
    intro cache missing nm h
    simp only [resolveTeamsGo]
    split
    · exact ih cache missing nm h
    · split
      · exact ih cache missing nm h
      · split
        · exact ih cache missing nm h
        · split
          · exact ih _ missing nm h
          · exact ih cache _ nm (List.mem_append_left _ h)

/-- Helper: when every cached name is resolvable, an unresolvable team name
referenced by some stub ends up in the unresolved list. -/
theorem resolveTeamsGo_complete (teams : List Team)
    (stubs : List TaskTemplateSchema) :
    ∀ (cache : List (String × Nat)) (missing : List String) (nm : String),
      (∀ p ∈ cache, (findTeamByNameCI teams p.1).isSome = true) →
      findTeamByNameCI teams nm = none →
      (∃ stub ∈ stubs, stub.assignedTeamName = some nm ∧ nm ≠ "") →
      nm ∈ (resolveTeamsGo teams cache missing stubs).2 := by
  induction stubs with
  | nil =>
    intro cache missing nm _ _ hex
    obtain ⟨stub, hmem, -⟩ := hex
    cases hmem
  | cons stub rest ih =>
    intro cache missing nm hcache hmiss hex
    obtain ⟨stub0, hmem0, hname, hne⟩ := hex
    rcases List.mem_cons.mp hmem0 with rfl | hmem0
    · simp only [resolveTeamsGo, hname]
      rw [if_neg (by simp [hne])]
      have hnc : (cache.find? (fun p => p.1 == nm)).isSome = false := by
        cases hf : cache.find? (fun p => p.1 == nm) with
        | none => rfl
        | some p =>
          have hp := List.find?_some hf
          have hpm := List.mem_of_find?_eq_some hf
          have hsome := hcache p hpm
          have hpeq : p.1 = nm := by simpa using hp
          rw [hpeq, hmiss] at hsome
          simp at hsome
      rw [if_neg (by simp [hnc]), hmiss]
      exact resolveTeamsGo_missing_mono teams rest cache (missing ++ [nm]) nm
        (List.mem_append_right _ (by simp))
    · cases hname2 : stub.assignedTeamName with
      | none =>
        simp only [resolveTeamsGo, hname2]
        exact ih cache missing nm hcache hmiss ⟨stub0, hmem0, hname, hne⟩
      | some nm2 =>
        simp only [resolveTeamsGo, hname2]
        by_cases h1 : (nm2 == "") = true
        · rw [if_pos h1]
          exact ih cache missing nm hcache hmiss ⟨stub0, hmem0, hname, hne⟩
        · rw [if_neg h1]
          by_cases h2 : (cache.find? (fun p => p.1 == nm2)).isSome = true
          · rw [if_pos h2]
            exact ih cache missing nm hcache hmiss ⟨stub0, hmem0, hname, hne⟩
          · rw [if_neg h2]
            cases hteam : findTeamByNameCI teams nm2 with
            | some team =>
              refine ih _ missing nm ?_ hmiss ⟨stub0, hmem0, hname, hne⟩
              intro p hp
              rcases List.mem_append.mp hp with hp | hp
              · exact hcache p hp
              · have hpe : p = (nm2, team.id) := by simpa using hp
                subst hpe
                rw [hteam]
                rfl
            | none =>
              exact ih cache _ nm hcache hmiss ⟨stub0, hmem0, hname, hne⟩

/-- Helper: with every task type parseable, the task-creation loop of
create_from_template yields one PENDING task per stub, all under the new
event. -/
theorem templateTaskRows_ok (eid : Nat) (cache : List (String × Nat))
    (stubs : List TaskTemplateSchema) :
    ∀ n : Nat, (∀ stub ∈ stubs, parseTaskType stub.taskType ≠ none) →
      ∃ ts, templateTaskRows n eid cache stubs = some ts ∧
        ts.length = stubs.length ∧
        ∀ t ∈ ts, t.status = TaskStatus.PENDING ∧ t.eventId = eid := by
  induction stubs with
  | nil =>
    intro n _
    exact ⟨[], rfl, rfl, by simp⟩
  | cons stub rest ih =>
    intro n h
    obtain ⟨tt, htt⟩ : ∃ tt, parseTaskType stub.taskType = some tt := by
      cases hp : parseTaskType stub.taskType with
      | none => exact absurd hp (h stub (List.mem_cons_self stub rest))
      | some tt => exact ⟨tt, rfl⟩
    obtain ⟨ts, hts, hlen, hall⟩ :=
      ih (n + 1) (fun s hs => h s (List.mem_cons_of_mem stub hs))
    refine ⟨{ id := n, eventId := eid, title := stub.title,
              description := stub.description, taskType := tt,
              status := TaskStatus.PENDING,
              assignedTeamId :=
                if stub.assignedTeamName.getD "" != "" then
                  (cache.find? (fun p => some p.1 == stub.assignedTeamName)).map
                    (fun p => p.2)
                else none } :: ts, ?_, ?_, ?_⟩
    · simp only [templateTaskRows, htt, hts]
    · simp [hlen]
    · intro t ht
      rcases List.mem_cons.mp ht with rfl | ht
      · exact ⟨rfl, rfl⟩
      · exact hall t ht

/-- C2: with the template resolved, create_from_template fails with a
validation error carrying the unresolved-team list and creates nothing when
that list is non-empty; every team name referenced by a stub that does not
resolve case-insensitively is named in that list; and with no unresolved
name, a parseable datetime and parseable stub task types, the call creates
exactly one Event row and one Task row per stub, each PENDING and attached
to the new event. -/
theorem c2_create_from_template_atomic (db : DB)
    (req : CreateFromTemplateRequest) (tmpl : EventTemplateOut)
    (hl : get_event_template_by_id db req.templateId = some tmpl) :
    ((resolveTeams db.teams tmpl.tasks).2 ≠ [] →
      create_from_template db req =
        .error (Err.validation (resolveTeams db.teams tmpl.tasks).2))
    ∧ (∀ nm, (∃ stub ∈ tmpl.tasks, stub.assignedTeamName = some nm ∧ nm ≠ "") →
        findTeamByNameCI db.teams nm = none →
        nm ∈ (resolveTeams db.teams tmpl.tasks).2)
    ∧ ((resolveTeams db.teams tmpl.tasks).2 = [] →
       ∀ dtv, req.datetime = some dtv →
       (∀ stub ∈ tmpl.tasks, parseTaskType stub.taskType ≠ none) →
       ∃ ev newTasks,
         create_from_template db req =
           .ok ({ db with events := db.events ++ [ev],
                          tasks := db.tasks ++ newTasks }, ev.id) ∧
         ev.id = freshEventId db ∧
         newTasks.length = tmpl.tasks.length ∧
         ∀ t ∈ newTasks, t.status = TaskStatus.PENDING ∧ t.eventId = ev.id) := by
  refine ⟨?_, ?_, ?_⟩
  · intro hne
    have hie : (resolveTeams db.teams tmpl.tasks).2.isEmpty = false := by
      rcases h : (resolveTeams db.teams tmpl.tasks).2 with _ | ⟨a, l⟩
      · exact absurd h hne
      · rfl
    simp only [create_from_template, hl, hie, Bool.not_false, if_true]
  · intro nm hex hmiss
    exact resolveTeamsGo_complete db.teams tmpl.tasks [] [] nm
      (by intro p hp; cases hp) hmiss hex
  · intro hmissing dtv hdt htypes
    have hie : (resolveTeams db.teams tmpl.tasks).2.isEmpty = true := by
      rw [hmissing]
      rfl
    obtain ⟨ts, hts, hlen, hall⟩ := templateTaskRows_ok (freshEventId db)
      (resolveTeams db.teams tmpl.tasks).1 tmpl.tasks (freshTaskId db) htypes
    refine ⟨{ id := freshEventId db, weekId := req.weekId,
              name := pyOrName req.eventName tmpl.name, datetime := dtv },
            ts, ?_, rfl, hlen, hall⟩
    simp only [create_from_template, hl, hie, Bool.not_true, if_false, hdt, hts]
    rfl

/-- Witness for C2: the sweet_sunday template against a database holding the
Logistics, Finance and Media teams. -/
theorem c2_witness :
    ((resolveTeams c2DB.teams templateSweetSunday.tasks).2 ≠ [] →
      create_from_template c2DB c2Req =
        .error (Err.validation (resolveTeams c2DB.teams templateSweetSunday.tasks).2))
    ∧ (∀ nm, (∃ stub ∈ templateSweetSunday.tasks,
          stub.assignedTeamName = some nm ∧ nm ≠ "") →
        findTeamByNameCI c2DB.teams nm = none →
        nm ∈ (resolveTeams c2DB.teams templateSweetSunday.tasks).2)
    ∧ ((resolveTeams c2DB.teams templateSweetSunday.tasks).2 = [] →
       ∀ dtv, c2Req.datetime = some dtv →
       (∀ stub ∈ templateSweetSunday.tasks, parseTaskType stub.taskType ≠ none) →
       ∃ ev newTasks,
         create_from_template c2DB c2Req =
           .ok ({ c2DB with events := c2DB.events ++ [ev],
                            tasks := c2DB.tasks ++ newTasks }, ev.id) ∧
         ev.id = freshEventId c2DB ∧
         newTasks.length = templateSweetSunday.tasks.length ∧
         ∀ t ∈ newTasks, t.status = TaskStatus.PENDING ∧ t.eventId = ev.id) :=
  c2_create_from_template_atomic c2DB c2Req templateSweetSunday (by rfl)

/-- Helper: the recipient resolution reads only the users and assignments
tables. -/
theorem reminderDiscordIds_congr (db1 db2 : DB) (t : Task)
    (hu : db1.users = db2.users) (ha : db1.assignments = db2.assignments) :
    reminderDiscordIds db1 t = reminderDiscordIds db2 t := by
  unfold reminderDiscordIds
  rw [hu, ha]

/-- Helper: one loop iteration of the scan, evaluated against a state that
agrees with the snapshot on events, users and assignments, for a task the
snapshot selected. -/
theorem autoReminderStep_eq (db acc : DB) (now : Int) (t : Task)
    (he : acc.events = db.events) (hu : acc.users = db.users)
    (ha : acc.assignments = db.assignments)
    (hdue : autoReminderDue db now t = true) :
    autoReminderStep acc t =
      if (reminderDiscordIds db t).isEmpty then acc
      else updateTaskRow acc t.id (fun t2 => { t2 with autoReminderSent := true }) := by
  unfold autoReminderStep
  rw [he]
  rcases hf : db.events.find? (fun e => e.id == t.eventId) with _ | e
  · unfold autoReminderDue at hdue
    rw [hf] at hdue
    simp at hdue
  · rw [reminderDiscordIds_congr acc db t hu ha]
    rcases hids : (reminderDiscordIds db t).isEmpty
    · simp [hf, hids]
    · simp [hf, hids]

/-- Helper: the scan loop only flips auto flags in the tasks table; every
other table keeps the starting state. -/
theorem scan_fold (db : DB) (now : Int) :
    ∀ (l : List Task) (acc : DB),
      acc.events = db.events → acc.users = db.users →
      acc.assignments = db.assignments →
      (∀ t ∈ l, autoReminderDue db now t = true) →
      l.foldl (fun acc2 t => autoReminderStep acc2 t) acc =
        { acc with tasks := l.foldl (fun ts t =>
            if (reminderDiscordIds db t).isEmpty then ts
            else ts.map (fun t2 => if t2.id == t.id then
              { t2 with autoReminderSent := true } else t2)) acc.tasks } := by
  intro l
  induction l with
  | nil =>
    intro acc _ _ _ _
    rfl
  | cons t l ih =>
    intro acc he hu ha hdue
    rw [List.foldl_cons, List.foldl_cons,
      autoReminderStep_eq db acc now t he hu ha (hdue t (List.mem_cons_self t l))]
    by_cases hids : (reminderDiscordIds db t).isEmpty = true
    · rw [if_pos hids, if_pos hids]
      exact ih acc he hu ha (fun t2 h2 => hdue t2 (List.mem_cons_of_mem t h2))
    · rw [if_neg hids, if_neg hids,
        ih (updateTaskRow acc t.id (fun t2 => { t2 with autoReminderSent := true }))
          he hu ha (fun t2 h2 => hdue t2 (List.mem_cons_of_mem t h2))]
      rfl

/-- Helper: the sequential per-task flipping equals one pass flipping the
tasks some processed task id matches. -/
theorem foldl_flip_eq_map (db : DB) (l : List Task) :
    ∀ ts0 : List Task,
      l.foldl (fun ts t =>
        if (reminderDiscordIds db t).isEmpty then ts
        else ts.map (fun t2 => if t2.id == t.id then
          { t2 with autoReminderSent := true } else t2)) ts0 =
      ts0.map (fun t2 =>
        if l.any (fun t => !(reminderDiscordIds db t).isEmpty && t.id == t2.id) then
          { t2 with autoReminderSent := true } else t2) := by
  induction l with
  | nil =>
    intro ts0
    simp
  | cons t l ih =>
    intro ts0
    rw [List.foldl_cons]
    by_cases hids : (reminderDiscordIds db t).isEmpty = true
    · rw [if_pos hids, ih]
      have hfe : (fun t2 : Task =>
          if l.any (fun t3 => !(reminderDiscordIds db t3).isEmpty && t3.id == t2.id) then
            { t2 with autoReminderSent := true } else t2) =
          (fun t2 : Task =>
            if (t :: l).any (fun t3 => !(reminderDiscordIds db t3).isEmpty && t3.id == t2.id) then
              { t2 with autoReminderSent := true } else t2) := by
        funext t2
        simp [List.any_cons, hids]
      rw [hfe]
    · rw [if_neg hids, ih, List.map_map]
      have hfe : ((fun t2 : Task =>
          if l.any (fun t3 => !(reminderDiscordIds db t3).isEmpty && t3.id == t2.id) then
            { t2 with autoReminderSent := true } else t2) ∘
          (fun t2 : Task => if t2.id == t.id then
            { t2 with autoReminderSent := true } else t2)) =
          (fun t2 : Task =>
            if (t :: l).any (fun t3 => !(reminderDiscordIds db t3).isEmpty && t3.id == t2.id) then
              { t2 with autoReminderSent := true } else t2) := by
        funext t2
        simp only [Function.comp_apply, List.any_cons]
        by_cases hid : (t2.id == t.id) = true
        · rw [if_pos hid]
          have h1 : (t.id == t2.id) = true := by
            have := beq_iff_eq.mp hid
            simp [this]
          by_cases hany : l.any (fun t3 =>
              !(reminderDiscordIds db t3).isEmpty && t3.id == t2.id) = true
          · rw [if_pos (by simpa using hany)]
            simp [hids, h1]
          · rw [if_neg (by simpa using hany)]
            simp [hids, h1]
        · rw [if_neg hid]
          have h1 : (t.id == t2.id) = false := by
            rcases hb : (t.id == t2.id) with _ | _
            · rfl
            · exact absurd (by simp [beq_iff_eq.mp hb]) hid
          simp [h1]
      rw [hfe]

/-- C9: selection of the auto-reminder scan is exactly PENDING, flag unsent
and parent event inside [now, now + 24h]; the scan flips auto_reminder_sent
to true precisely on the selected tasks with at least one resolvable
recipient, leaves every other task row untouched (so a task with no
recipients stays eligible for a later tick), and changes no other table.
Distinct primary keys are assumed, as the storage layer guarantees. -/
theorem c9_auto_reminder_scan (db : DB) (now : Int)
    (hT : (db.tasks.map (fun t => t.id)).Nodup)
    (hE : (db.events.map (fun e => e.id)).Nodup) :
    (∀ t : Task, autoReminderDue db now t = true ↔
      (t.status = TaskStatus.PENDING ∧ t.autoReminderSent = false ∧
       ∃ e ∈ db.events, e.id = t.eventId ∧ now ≤ e.datetime ∧
         e.datetime ≤ now + 1440))
    ∧ (check_auto_reminders db now).tasks =
      db.tasks.map (fun t =>
        if autoReminderDue db now t && !(reminderDiscordIds db t).isEmpty then
          { t with autoReminderSent := true } else t)
    ∧ (check_auto_reminders db now).events = db.events
    ∧ (check_auto_reminders db now).users = db.users
    ∧ (check_auto_reminders db now).assignments = db.assignments := by
  have hmain : check_auto_reminders db now =
      { db with tasks := db.tasks.map (fun t =>
          if autoReminderDue db now t && !(reminderDiscordIds db t).isEmpty then
            { t with autoReminderSent := true } else t) } := by
    unfold check_auto_reminders
    rw [scan_fold db now (db.tasks.filter (autoReminderDue db now)) db rfl rfl rfl
      (fun t ht => (List.mem_filter.mp ht).2)]
    rw [foldl_flip_eq_map db (db.tasks.filter (autoReminderDue db now)) db.tasks]
    have hfe : ∀ t2 ∈ db.tasks,
        ((db.tasks.filter (autoReminderDue db now)).any (fun t =>
          !(reminderDiscordIds db t).isEmpty && t.id == t2.id)) =
        (autoReminderDue db now t2 && !(reminderDiscordIds db t2).isEmpty) := by
      intro t2 ht2
      rcases hrhs : (autoReminderDue db now t2 && !(reminderDiscordIds db t2).isEmpty)
      · rcases hany : ((db.tasks.filter (autoReminderDue db now)).any (fun t =>
            !(reminderDiscordIds db t).isEmpty && t.id == t2.id))
        · rfl
        · obtain ⟨t, htmem, htp⟩ := List.any_eq_true.mp hany
          have hdue := (List.mem_filter.mp htmem).2
          have htmem2 := (List.mem_filter.mp htmem).1
          rw [Bool.and_eq_true] at htp
          have hpe := htp
          have hideq : t.id = t2.id := beq_iff_eq.mp hpe.2
          have : t = t2 := List.inj_on_of_nodup_map hT htmem2 ht2 hideq
          subst this
          rw [hdue, hpe.1] at hrhs
          simp at hrhs
      · rw [Bool.and_eq_true] at hrhs
        obtain ⟨hdue, hne⟩ := hrhs
        apply List.any_eq_true.mpr
        exact ⟨t2, List.mem_filter.mpr ⟨ht2, hdue⟩, by simp [hne]⟩
    congr 1
    apply List.map_congr_left
    intro t2 ht2
    rw [hfe t2 ht2]
  refine ⟨?_, by rw [hmain], by rw [hmain], by rw [hmain], by rw [hmain]⟩
  intro t
  unfold autoReminderDue
  constructor
  · intro h
    rw [Bool.and_eq_true, Bool.and_eq_true] at h
    obtain ⟨⟨h1, h2⟩, h3⟩ := h
    refine ⟨beq_iff_eq.mp h1, by simpa using h2, ?_⟩
    rcases hf : db.events.find? (fun e => e.id == t.eventId) with _ | e
    · rw [hf] at h3
      simp at h3
    · rw [hf] at h3
      have hem := List.mem_of_find?_eq_some hf
      have hep : e.id = t.eventId := by simpa using List.find?_some hf
      rw [Option.any_some, Bool.and_eq_true] at h3
      refine ⟨e, hem, hep, by simpa using h3.1, by simpa using h3.2⟩
  · rintro ⟨h1, h2, e, hem, heid, hlo, hhi⟩
    rw [Bool.and_eq_true, Bool.and_eq_true]
    refine ⟨⟨by simp [h1], by simp [h2]⟩, ?_⟩
    have hsome : (db.events.find? (fun e2 => e2.id == t.eventId)).isSome = true :=
      List.find?_isSome.mpr ⟨e, hem, by simp [heid]⟩
    rcases hf : db.events.find? (fun e2 => e2.id == t.eventId) with _ | e2
    · rw [hf] at hsome
      simp at hsome
    · have hem2 := List.mem_of_find?_eq_some hf
      have hep2 : e2.id = t.eventId := by simpa using List.find?_some hf
      have : e2 = e := List.inj_on_of_nodup_map hE hem2 hem (by rw [hep2, heid])
      subst this
      rw [hf]
      simp [hlo, hhi]

/-- Witness for C9 at the concrete scan database and instant 0: one due task
with a recipient, one due task without, one DONE and one already-sent
task. -/
theorem c9_witness :
    (∀ t : Task, autoReminderDue c9DB 0 t = true ↔
      (t.status = TaskStatus.PENDING ∧ t.autoReminderSent = false ∧
       ∃ e ∈ c9DB.events, e.id = t.eventId ∧ (0 : Int) ≤ e.datetime ∧
         e.datetime ≤ 0 + 1440))
    ∧ (check_auto_reminders c9DB 0).tasks =
      c9DB.tasks.map (fun t =>
        if autoReminderDue c9DB 0 t && !(reminderDiscordIds c9DB t).isEmpty then
          { t with autoReminderSent := true } else t)
    ∧ (check_auto_reminders c9DB 0).events = c9DB.events
    ∧ (check_auto_reminders c9DB 0).users = c9DB.users
    ∧ (check_auto_reminders c9DB 0).assignments = c9DB.assignments :=
  c9_auto_reminder_scan c9DB 0 (by decide) (by decide)

/-- Helper: template lookup reads only the persisted template rows. -/
theorem get_event_template_congr (db1 db2 : DB) (tid : String)
    (h : db1.eventTemplates = db2.eventTemplates) :
    get_event_template_by_id db1 tid = get_event_template_by_id db2 tid := by
  unfold get_event_template_by_id
  rw [h]

/-- Helper: every team id the cache step stores belongs to an existing
team. -/
theorem weekTeamCacheStub_inv (teams : List Team)
    (cache : List (String × Option Nat)) (stub : TaskTemplateSchema)
    (h : ∀ p ∈ cache, ∀ tid, p.2 = some tid → ∃ team ∈ teams, team.id = tid) :
    ∀ p ∈ weekTeamCacheStub teams cache stub, ∀ tid, p.2 = some tid →
      ∃ team ∈ teams, team.id = tid := by
  intro p hp tid htid
  rcases hname : stub.assignedTeamName with _ | nm
  · simp only [weekTeamCacheStub, hname] at hp
    exact h p hp tid htid
  · simp only [weekTeamCacheStub, hname] at hp
    by_cases h1 : (nm == "") = true
    · rw [if_pos h1] at hp
      exact h p hp tid htid
    · rw [if_neg h1] at hp
      by_cases h2 : (cache.find? (fun p2 => p2.1 == nm)).isSome = true
      · rw [if_pos h2] at hp
        exact h p hp tid htid
      · rw [if_neg h2] at hp
        rcases List.mem_append.mp hp with hp | hp
        · exact h p hp tid htid
        · have hpe : p = (nm, (findTeamByNameCI teams nm).map (fun t => t.id)) := by
            simpa using hp
          subst hpe
          cases hft : findTeamByNameCI teams nm with
          | none =>
            rw [hft] at htid
            simp at htid
          | some team =>
            rw [hft] at htid
            simp at htid
            exact ⟨team, List.mem_of_find?_eq_some hft, htid⟩

/-- Helper: the invariant over the inner stub fold of the cache builder. -/
theorem weekTeamCacheStub_foldl_inv (teams : List Team)
    (stubs : List TaskTemplateSchema) :
    ∀ cache, (∀ p ∈ cache, ∀ tid, p.2 = some tid → ∃ team ∈ teams, team.id = tid) →
      ∀ p ∈ stubs.foldl (weekTeamCacheStub teams) cache, ∀ tid, p.2 = some tid →
        ∃ team ∈ teams, team.id = tid := by
  induction stubs with
  | nil => exact fun cache h => h
  | cons stub rest ih =>
    intro cache h
    rw [List.foldl_cons]
    exact ih (weekTeamCacheStub teams cache stub) (weekTeamCacheStub_inv teams cache stub h)

/-- Helper: the invariant over the outer entry loop of the cache builder. -/
theorem weekTeamCacheGo_sound (db : DB) (entries : List WeekEventTemplateSchema) :
    ∀ cache, (∀ p ∈ cache, ∀ tid, p.2 = some tid → ∃ team ∈ db.teams, team.id = tid) →
      ∀ p ∈ weekTeamCacheGo db cache entries, ∀ tid, p.2 = some tid →
        ∃ team ∈ db.teams, team.id = tid := by
  induction entries with
  | nil =>
    intro cache h
    simpa [weekTeamCacheGo] using h
  | cons we rest ih =>
    intro cache h
    cases hlk : get_event_template_by_id db we.eventTemplateId with
    | none =>
      simp only [weekTeamCacheGo, hlk]
      exact ih cache h
    | some tmpl =>
      simp only [weekTeamCacheGo, hlk]
      exact ih _ (weekTeamCacheStub_foldl_inv db.teams tmpl.tasks cache h)

/-- Helper: every team id in the built cache belongs to an existing team;
a missing team name is cached as none. -/
theorem weekTeamCache_sound (db : DB) (entries : List WeekEventTemplateSchema) :
    ∀ p ∈ weekTeamCache db entries, ∀ tid, p.2 = some tid →
      ∃ team ∈ db.teams, team.id = tid :=
  weekTeamCacheGo_sound db entries [] (by intro p hp; cases hp)

/-- Helper: with every task type parseable, the week-template task loop
yields one PENDING task per stub, every attached team id coming from the
cache. -/
theorem weekTaskRows_ok (eid : Nat) (cache : List (String × Option Nat))
    (stubs : List TaskTemplateSchema) :
    ∀ n : Nat, (∀ stub ∈ stubs, parseTaskType stub.taskType ≠ none) →
      ∃ ts, weekTaskRows n eid cache stubs = some ts ∧
        ts.length = stubs.length ∧
        ∀ t ∈ ts, t.status = TaskStatus.PENDING ∧
          ∀ tid, t.assignedTeamId = some tid → ∃ p ∈ cache, p.2 = some tid := by
  induction stubs with
  | nil =>
    intro n _
    exact ⟨[], rfl, rfl, by simp⟩
  | cons stub rest ih =>
    intro n h
    obtain ⟨tt, htt⟩ : ∃ tt, parseTaskType stub.taskType = some tt := by
      cases hp : parseTaskType stub.taskType with
      | none => exact absurd hp (h stub (List.mem_cons_self stub rest))
      | some tt => exact ⟨tt, rfl⟩
    obtain ⟨ts, hts, hlen, hall⟩ :=
      ih (n + 1) (fun s hs => h s (List.mem_cons_of_mem stub hs))
    refine ⟨{ id := n, eventId := eid, title := stub.title,
              description := stub.description, taskType := tt,
              status := TaskStatus.PENDING,
              assignedTeamId :=
                if stub.assignedTeamName.getD "" != "" then
                  ((cache.find? (fun p => some p.1 == stub.assignedTeamName)).map
                    (fun p => p.2)).join
                else none } :: ts, ?_, ?_, ?_⟩
    · simp only [weekTaskRows, htt, hts]
    · simp [hlen]
    · intro t ht
      rcases List.mem_cons.mp ht with rfl | ht
      · refine ⟨rfl, ?_⟩
        intro tid htid
        by_cases hnm : (stub.assignedTeamName.getD "" != "") = true
        · rw [if_pos hnm] at htid
          cases hfp : cache.find? (fun p => some p.1 == stub.assignedTeamName) with
          | none =>
            rw [hfp] at htid
            simp at htid
          | some p =>
            rw [hfp] at htid
            simp only [Option.map_some] at htid
            exact ⟨p, List.mem_of_find?_eq_some hfp, by simpa using htid⟩
        · rw [if_neg hnm] at htid
          cases htid
      · exact hall t ht

/-- Helper: with every processed entry expandable, the week expansion
succeeds — with no condition on team existence — creating one event per
resolvable entry and only PENDING tasks whose team ids all come from the
cache. -/
theorem expandWeekEntries_ok (db0 : DB) (weekId : Nat) (wsd : Int)
    (cache : List (String × Option Nat)) :
    ∀ (entries : List WeekEventTemplateSchema) (dbA : DB),
      dbA.eventTemplates = db0.eventTemplates →
      (∀ we ∈ entries, ∀ tmpl,
        get_event_template_by_id db0 we.eventTemplateId = some tmpl →
        (parseHM we.defaultTime).isSome = true ∧
        ∀ stub ∈ tmpl.tasks, parseTaskType stub.taskType ≠ none) →
      ∃ db1 names, expandWeekEntries weekId wsd cache dbA entries = .ok (db1, names) ∧
        db1.eventTemplates = dbA.eventTemplates ∧
        db1.teams = dbA.teams ∧
        names.length = entries.countP
          (fun we => (get_event_template_by_id db0 we.eventTemplateId).isSome) ∧
        db1.events.length = dbA.events.length + names.length ∧
        (∀ t ∈ db1.tasks, t ∈ dbA.tasks ∨
          (t.status = TaskStatus.PENDING ∧
           ∀ tid, t.assignedTeamId = some tid → ∃ p ∈ cache, p.2 = some tid)) := by
  intro entries
  induction entries with
  | nil =>
    intro dbA _ _
    exact ⟨dbA, [], rfl, rfl, rfl, by simp, by simp, fun t ht => Or.inl ht⟩
  | cons we rest ih =>
    intro dbA hets hok
    have hcongr : get_event_template_by_id dbA we.eventTemplateId =
        get_event_template_by_id db0 we.eventTemplateId :=
      get_event_template_congr dbA db0 we.eventTemplateId hets
    cases hlk : get_event_template_by_id db0 we.eventTemplateId with
    | none =>
      obtain ⟨db1, names, hrun, h1, h2, h3, h4, h5⟩ :=
        ih dbA hets (fun we2 h2 => hok we2 (List.mem_cons_of_mem we h2))
      refine ⟨db1, names, ?_, h1, h2, ?_, h4, h5⟩
      · simp only [expandWeekEntries, hcongr, hlk]
        exact hrun
      · rw [h3, List.countP_cons]
        simp [hlk]
    | some tmpl =>
      obtain ⟨hhm, htypes⟩ := hok we (List.mem_cons_self we rest) tmpl hlk
      obtain ⟨hm, hhm2⟩ : ∃ hm, parseHM we.defaultTime = some hm := by
        cases hp : parseHM we.defaultTime with
        | none =>
          rw [hp] at hhm
          simp at hhm
        | some hm => exact ⟨hm, rfl⟩
      obtain ⟨ts, hts, hlen, hall⟩ :=
        weekTaskRows_ok (freshEventId dbA) cache tmpl.tasks
          (freshTaskId { dbA with events := dbA.events ++
            [{ id := freshEventId dbA, weekId := weekId, name := tmpl.name,
               datetime := weekEventDatetime wsd we.dayOfWeek hm.1 hm.2 }] }) htypes
      obtain ⟨db1, names, hrun, h1, h2, h3, h4, h5⟩ :=
        ih { dbA with
              events := dbA.events ++
                [{ id := freshEventId dbA, weekId := weekId, name := tmpl.name,
                   datetime := weekEventDatetime wsd we.dayOfWeek hm.1 hm.2 }],
              tasks := dbA.tasks ++ ts }
          hets (fun we2 h2 => hok we2 (List.mem_cons_of_mem we h2))
      refine ⟨db1, tmpl.name :: names, ?_, h1, h2, ?_, ?_, ?_⟩
      · simp only [expandWeekEntries, hcongr, hlk, hhm2, hts, hrun]
      · rw [List.countP_cons]
        simp [hlk, h3]
      · rw [h4]
        simp only [List.length_append, List.length_cons]
        simp
        omega
      · intro t ht
        rcases h5 t ht with hmem | hgood
        · rcases List.mem_append.mp hmem with hmem | hmem
          · exact Or.inl hmem
          · obtain ⟨hst, hteam⟩ := hall t hmem
            exact Or.inr ⟨hst, hteam⟩
        · exact Or.inr hgood

/-- C8 counterexample: expanding the built-in sweet_sunday_kk week template
against a database with no team rows at all succeeds, creating both events
and all 27 tasks with a null team assignment — the team names referenced by
the resolvable entries (Logistics among them) are simply unresolved, with no
validation failure — contradicting the claimed reuse of the single-event
pre-validation. -/
theorem c8_counterexample :
    ((create_from_week_template c8DB c8Req).toOption.map (fun res =>
      ((res.1.tasks.map (fun t => t.assignedTeamId)).all (fun o => o == none),
        res.1.events.length, res.1.tasks.length))) = some (true, 2, 27) ∧
    findTeamByNameCI c8DB.teams "Logistics" = none := by
  constructor
  · rfl
  · rfl

/-- C8 amended: each entry of a week template whose event-template reference
does not resolve is silently skipped without failing the batch; a resolvable
entry is expanded with best-effort team resolution instead of the
single-event path's pre-validation: the batch succeeds with no condition on
team existence, creating exactly one event per resolvable entry and only
PENDING tasks, and a task's team assignment is set only when the referenced
team exists (a missing team yields a null assignment rather than a
failure). -/
theorem c8_amended_week_template_lenient (db : DB)
    (req : CreateFromWeekTemplateRequest) (wt : WeekTemplateOut) (week : Week)
    (hwt : get_week_template_by_id db req.weekTemplateId = some wt)
    (hwk : db.weeks.find? (fun w => w.id == req.weekId) = some week)
    (hok : ∀ we ∈ wt.events, ∀ tmpl,
      get_event_template_by_id db we.eventTemplateId = some tmpl →
      (parseHM we.defaultTime).isSome = true ∧
      ∀ stub ∈ tmpl.tasks, parseTaskType stub.taskType ≠ none) :
    ∃ db1 names, create_from_week_template db req = .ok (db1, names) ∧
      names.length = wt.events.countP
        (fun we => (get_event_template_by_id db we.eventTemplateId).isSome) ∧
      db1.events.length = db.events.length + names.length ∧
      (∀ t ∈ db1.tasks, t ∈ db.tasks ∨
        (t.status = TaskStatus.PENDING ∧
         ∀ tid, t.assignedTeamId = some tid → ∃ team ∈ db.teams, team.id = tid)) := by
  obtain ⟨db1, names, hrun, h1, h2, h3, h4, h5⟩ :=
    expandWeekEntries_ok db req.weekId week.startDate (weekTeamCache db wt.events)
      wt.events db rfl hok
  refine ⟨db1, names, ?_, h3, h4, ?_⟩
  · simp only [create_from_week_template, hwt, hwk]
    exact hrun
  · intro t ht
    rcases h5 t ht with hmem | ⟨hst, hteam⟩
    · exact Or.inl hmem
    · refine Or.inr ⟨hst, ?_⟩
      intro tid htid
      obtain ⟨p, hp, hp2⟩ := hteam tid htid
      exact weekTeamCache_sound db wt.events p hp tid hp2

/-- Witness for C8: the sweet_sunday_kk week template against the teamless
database — the batch succeeds with two events created. -/
theorem c8_witness :
    ∃ db1 names, create_from_week_template c8DB c8Req = .ok (db1, names) ∧
      names.length = weekTemplateSweetSundayKK.events.countP
        (fun we => (get_event_template_by_id c8DB we.eventTemplateId).isSome) ∧
      db1.events.length = c8DB.events.length + names.length ∧
      (∀ t ∈ db1.tasks, t ∈ c8DB.tasks ∨
        (t.status = TaskStatus.PENDING ∧
         ∀ tid, t.assignedTeamId = some tid →
           ∃ team ∈ c8DB.teams, team.id = tid)) :=
  c8_amended_week_template_lenient c8DB c8Req weekTemplateSweetSundayKK c8Week
    (by rfl) (by rfl) (by decide)

end AlAmanah
